import Mathlib

set_option linter.unnecessarySeqFocus false
set_option linter.unusedTactic false
set_option linter.unreachableTactic false

/-!
Verification of the terminal state engine of the `shitty` terminal emulator.

The definitions below are a shallow embedding of `src/terminal/grid.rs`,
`src/terminal/color.rs` and `src/keymap.rs`.  Machine integers are modelled
as `Nat` (with explicit `% 2^w` where the Rust code truncates), the cell
vectors are modelled as total functions from indices to cells together with
an explicit length counter mirroring `Vec::len`, and the mutable methods of
`TerminalGrid` become state-passing functions.
-/

namespace Shitty

/-- An RGB color, embedding `egui::Color32` as produced by `from_rgb`. -/
structure Color32 where
  r : Nat
  g : Nat
  b : Nat
deriving DecidableEq, Repr

/-- `DEFAULT_FG` from color.rs, `egui::Color32::WHITE`. -/
def DEFAULT_FG : Color32 := ⟨255, 255, 255⟩

/-- `DEFAULT_BG` from color.rs, `egui::Color32::BLACK`. -/
def DEFAULT_BG : Color32 := ⟨0, 0, 0⟩

/-- Modelled from the spec: `ColorKind` is declared in src/terminal/color.rs,
whose provided copy omits it; the constructors are reconstructed from every
use in src/terminal/grid.rs and from the spec's `ColorAttribute`
(Default, palette index by ANSI or xterm numbering, true color). -/
inductive ColorKind where
  | Default
  | Ansi (idx : Nat)
  | Xterm (idx : Nat)
  | Rgb (c : Color32)
deriving DecidableEq, Repr

/-- `ansi_16_color` from color.rs. -/
def ansi_16_color (index : Nat) : Color32 :=
  if index = 0 then ⟨0, 0, 0⟩
  else if index = 1 then ⟨128, 0, 0⟩
  else if index = 2 then ⟨0, 128, 0⟩
  else if index = 3 then ⟨128, 128, 0⟩
  else if index = 4 then ⟨0, 0, 128⟩
  else if index = 5 then ⟨128, 0, 128⟩
  else if index = 6 then ⟨0, 128, 128⟩
  else if index = 7 then ⟨192, 192, 192⟩
  else if index = 8 then ⟨128, 128, 128⟩
  else if index = 9 then ⟨255, 0, 0⟩
  else if index = 10 then ⟨0, 255, 0⟩
  else if index = 11 then ⟨255, 255, 0⟩
  else if index = 12 then ⟨0, 0, 255⟩
  else if index = 13 then ⟨255, 0, 255⟩
  else if index = 14 then ⟨0, 255, 255⟩
  else ⟨255, 255, 255⟩

/-- `RGB_LEVELS` from color.rs. -/
def RGB_LEVELS : List Nat := [0, 95, 135, 175, 215, 255]

/-- `xterm_256_color` from color.rs; `index` is a `u8` value below 256. -/
def xterm_256_color (index : Nat) : Color32 :=
  if index < 16 then ansi_16_color index
  else if index < 232 then
    let idx := index - 16
    let r := idx / 36
    let g := (idx / 6) % 6
    let b := idx % 6
    ⟨RGB_LEVELS.getD r 0, RGB_LEVELS.getD g 0, RGB_LEVELS.getD b 0⟩
  else
    let gray := min (8 + (index - 232) * 10) 255
    ⟨gray, gray, gray⟩

/-- `Charset` from grid.rs. -/
inductive Charset where
  | Ascii
  | DecSpecial
deriving DecidableEq, Repr

/-- `map_dec_special` from grid.rs. -/
def map_dec_special (ch : Char) : Char :=
  if ch = 'j' then '┘'
  else if ch = 'k' then '┐'
  else if ch = 'l' then '┌'
  else if ch = 'm' then '└'
  else if ch = 'n' then '┼'
  else if ch = 'q' then '─'
  else if ch = 't' then '├'
  else if ch = 'u' then '┤'
  else if ch = 'v' then '┴'
  else if ch = 'w' then '┬'
  else if ch = 'x' then '│'
  else if ch = 'y' then '≤'
  else if ch = 'z' then '≥'
  else if ch = '{' then 'π'
  else if ch = '|' then '≠'
  else if ch = '}' then '£'
  else if ch = '~' then '·'
  else ch

/-- `Cell` from grid.rs. -/
structure Cell where
  ch : Char
  fg_kind : ColorKind
  bg_kind : ColorKind
  underline : Bool
  cont : Bool
deriving DecidableEq, Repr

/-- `impl Default for Cell` from grid.rs. -/
def Cell.default : Cell :=
  { ch := ' ', fg_kind := .Default, bg_kind := .Default, underline := false, cont := false }

/-- `TAB_SIZE` from grid.rs. -/
def TAB_SIZE : Nat := 8

/-- Modelled from the spec: the display width of a character, as computed by
the external `unicode-width` crate (`UnicodeWidthChar::width(ch).unwrap_or(1)`
in grid.rs): 0 for zero-width combining marks, 2 for wide East-Asian
characters, 1 otherwise.  The crate is not part of this repository, so the
wide and zero-width ranges here cover the common blocks only. -/
def charWidth (c : Char) : Nat :=
  let n := c.toNat
  if 0x300 ≤ n ∧ n ≤ 0x36F then 0
  else if (0x1100 ≤ n ∧ n ≤ 0x115F) ∨ (0x2E80 ≤ n ∧ n ≤ 0x303E) ∨
      (0x3041 ≤ n ∧ n ≤ 0x33FF) ∨ (0x3400 ≤ n ∧ n ≤ 0x4DBF) ∨
      (0x4E00 ≤ n ∧ n ≤ 0x9FFF) ∨ (0xAC00 ≤ n ∧ n ≤ 0xD7A3) ∨
      (0xF900 ≤ n ∧ n ≤ 0xFAFF) ∨ (0xFF00 ≤ n ∧ n ≤ 0xFF60) ∨
      (0xFFE0 ≤ n ∧ n ≤ 0xFFE6) ∨ (0x20000 ≤ n ∧ n ≤ 0x3FFFD) then 2
  else 1

/-- Point update of a cell buffer (`self.cells[idx] = ...` in grid.rs). -/
def updIdx (cells : Nat → Cell) (i : Nat) (c : Cell) : Nat → Cell :=
  fun j => if j = i then c else cells j

/-- Fill the index span from `start` of length `len` with cell `c`,
embedding the in-place blanking loops of grid.rs. -/
def fillSpan (start len : Nat) (c : Cell) (cells : Nat → Cell) : Nat → Cell :=
  fun j => if start ≤ j ∧ j < start + len then c else cells j

/-- Copy the index span of length `len` starting at `srcStart` onto the span
starting at `dstStart`, reading from the pre-copy buffer; this embeds the
`copy_within` / `copy_from_slice` calls of grid.rs (memmove semantics). -/
def copySpan (srcStart dstStart len : Nat) (cells : Nat → Cell) : Nat → Cell :=
  fun j =>
    if dstStart ≤ j ∧ j < dstStart + len then cells (srcStart + (j - dstStart))
    else cells j

/-- `TerminalGrid` from grid.rs.  The `vte::Parser` field is omitted (it is
state of the external parser crate, not of the screen engine); each cell
vector is a total function paired with a length counter mirroring the
`Vec` length, and the 256-entry palette is a function as well. -/
structure TerminalGrid where
  cols : Nat
  rows : Nat
  cells : Nat → Cell
  cells_len : Nat
  cursor_row : Nat
  cursor_col : Nat
  saved_cursor : Nat × Nat
  scroll_top : Nat
  scroll_bottom : Nat
  alt_cells : Nat → Cell
  alt_cells_len : Nat
  alt_cursor_row : Nat
  alt_cursor_col : Nat
  alt_saved_cursor : Nat × Nat
  alt_scroll_top : Nat
  alt_scroll_bottom : Nat
  in_alt : Bool
  cursor_visible : Bool
  saved_cursor_1049 : Option (Nat × Nat)
  cur_fg_kind : ColorKind
  cur_bg_kind : ColorKind
  cur_bold : Bool
  cur_underline : Bool
  cur_inverse : Bool
  g0 : Charset
  g1 : Charset
  use_g1 : Bool
  last_printable : Option Char
  default_fg : Color32
  default_bg : Color32
  cursor_color : Option Color32
  palette : Nat → Option Color32

/-- `TerminalGrid::new` from grid.rs. -/
def TerminalGrid.new (cols rows : Nat) : TerminalGrid :=
  let cols := max cols 1
  let rows := max rows 1
  { cols := cols
    rows := rows
    cells := fun _ => Cell.default
    cells_len := cols * rows
    cursor_row := 0
    cursor_col := 0
    saved_cursor := (0, 0)
    scroll_top := 0
    scroll_bottom := rows - 1
    alt_cells := fun _ => Cell.default
    alt_cells_len := 0
    alt_cursor_row := 0
    alt_cursor_col := 0
    alt_saved_cursor := (0, 0)
    alt_scroll_top := 0
    alt_scroll_bottom := rows - 1
    in_alt := false
    cursor_visible := true
    saved_cursor_1049 := none
    cur_fg_kind := .Default
    cur_bg_kind := .Default
    cur_bold := false
    cur_underline := false
    cur_inverse := false
    g0 := .Ascii
    g1 := .Ascii
    use_g1 := false
    last_printable := none
    default_fg := DEFAULT_FG
    default_bg := DEFAULT_BG
    cursor_color := none
    palette := fun _ => none }

/-- `TerminalGrid::cell_index` from grid.rs. -/
def TerminalGrid.cell_index (g : TerminalGrid) (row col : Nat) : Nat :=
  row * g.cols + col

/-- `TerminalGrid::cell_at` from grid.rs. -/
def TerminalGrid.cell_at (g : TerminalGrid) (row col : Nat) : Cell :=
  if row < g.rows ∧ col < g.cols then g.cells (g.cell_index row col)
  else Cell.default

/-- `TerminalGrid::effective_color_kinds` from grid.rs: bold brightens an
ANSI foreground below 8, inverse swaps foreground and background. -/
def TerminalGrid.effective_color_kinds (g : TerminalGrid) : ColorKind × ColorKind :=
  let fg := g.cur_fg_kind
  let fg :=
    if g.cur_bold then
      match fg with
      | .Ansi idx => if idx < 8 then .Ansi (idx + 8) else fg
      | _ => fg
    else fg
  let bg := g.cur_bg_kind
  if g.cur_inverse then (bg, fg) else (fg, bg)

/-- First component of `current_cell_attrs` from grid.rs. -/
def TerminalGrid.attr_fg (g : TerminalGrid) : ColorKind :=
  g.effective_color_kinds.1

/-- Second component of `current_cell_attrs` from grid.rs. -/
def TerminalGrid.attr_bg (g : TerminalGrid) : ColorKind :=
  g.effective_color_kinds.2

/-- `TerminalGrid::current_cell_attrs` from grid.rs. -/
def TerminalGrid.current_cell_attrs (g : TerminalGrid) : ColorKind × ColorKind × Bool :=
  (g.attr_fg, g.attr_bg, g.cur_underline)

/-- The blank cell written by the clearing loops of grid.rs: a space
carrying the current effective attributes, with `cont` false. -/
def TerminalGrid.blank_cell (g : TerminalGrid) : Cell :=
  { ch := ' ', fg_kind := g.attr_fg, bg_kind := g.attr_bg,
    underline := g.cur_underline, cont := false }

/-- `TerminalGrid::resolve_color` from grid.rs. -/
def TerminalGrid.resolve_color (g : TerminalGrid) (kind : ColorKind) (is_fg : Bool) : Color32 :=
  match kind with
  | .Default => if is_fg then g.default_fg else g.default_bg
  | .Ansi idx =>
    match g.palette idx with
    | some color => color
    | none => ansi_16_color idx
  | .Xterm idx =>
    match g.palette idx with
    | some color => color
    | none => xterm_256_color idx
  | .Rgb color => color

/-- `TerminalGrid::resolve_cell_colors` from grid.rs. -/
def TerminalGrid.resolve_cell_colors (g : TerminalGrid) (cell : Cell) : Color32 × Color32 :=
  (g.resolve_color cell.fg_kind true, g.resolve_color cell.bg_kind false)

/-- `TerminalGrid::set_cell` from grid.rs: out-of-bounds writes are ignored. -/
def TerminalGrid.set_cell (g : TerminalGrid) (row col : Nat) (ch : Char)
    (fg_kind bg_kind : ColorKind) (underline cont : Bool) : TerminalGrid :=
  if row < g.rows ∧ col < g.cols then
    let c : Cell :=
      { ch := ch, fg_kind := fg_kind, bg_kind := bg_kind,
        underline := underline, cont := cont }
    { g with cells := updIdx g.cells (g.cell_index row col) c }
  else g

/-- `TerminalGrid::set_blank_cell` from grid.rs. -/
def TerminalGrid.set_blank_cell (g : TerminalGrid) (row col : Nat) : TerminalGrid :=
  g.set_cell row col ' ' g.attr_fg g.attr_bg g.cur_underline false

/-- `TerminalGrid::clear_wide_at` from grid.rs. -/
def TerminalGrid.clear_wide_at (g : TerminalGrid) (row col : Nat) : TerminalGrid :=
  if row ≥ g.rows ∨ col ≥ g.cols then g
  else
    let idx := g.cell_index row col
    let g :=
      if (g.cells idx).cont then
        let g := if col > 0 then g.set_blank_cell row (col - 1) else g
        { g with cells := updIdx g.cells idx ({ g.cells idx with cont := false }) }
      else g
    if col + 1 < g.cols ∧ (g.cells (idx + 1)).cont then g.set_blank_cell row (col + 1)
    else g

/-- `TerminalGrid::clear` from grid.rs. -/
def TerminalGrid.clear (g : TerminalGrid) : TerminalGrid :=
  { g with
    cells := fun j => if j < g.cells_len then g.blank_cell else g.cells j
    cursor_row := 0
    cursor_col := 0 }

/-- `TerminalGrid::scroll_up` from grid.rs.  Each of the `lines` iterations
copies every row from `top+1` through `bottom` one row up (the sequential
in-place copies read each source row before it is overwritten, so a fold of
span copies reading from the running buffer is the exact semantics) and
then blanks row `bottom`. -/
def TerminalGrid.scroll_up (g : TerminalGrid) (lines : Nat) : TerminalGrid :=
  let top := min g.scroll_top (g.rows - 1)
  let bottom := min g.scroll_bottom (g.rows - 1)
  if top ≥ bottom then g
  else
    (List.range lines).foldl
      (fun g' _ =>
        let cells :=
          (List.range' (top + 1) (bottom - top)).foldl
            (fun cs row => copySpan (row * g'.cols) ((row - 1) * g'.cols) g'.cols cs)
            g'.cells
        { g' with cells := fillSpan (bottom * g'.cols) g'.cols g'.blank_cell cells })
      g

/-- `TerminalGrid::scroll_down` from grid.rs. -/
def TerminalGrid.scroll_down (g : TerminalGrid) (lines : Nat) : TerminalGrid :=
  let top := min g.scroll_top (g.rows - 1)
  let bottom := min g.scroll_bottom (g.rows - 1)
  if top ≥ bottom then g
  else
    (List.range lines).foldl
      (fun g' _ =>
        let cells :=
          ((List.range' top (bottom - top)).reverse).foldl
            (fun cs row => copySpan (row * g'.cols) ((row + 1) * g'.cols) g'.cols cs)
            g'.cells
        { g' with cells := fillSpan (top * g'.cols) g'.cols g'.blank_cell cells })
      g

/-- `TerminalGrid::newline` from grid.rs. -/
def TerminalGrid.newline (g : TerminalGrid) : TerminalGrid :=
  if g.cursor_row ≥ g.scroll_bottom then g.scroll_up 1
  else { g with cursor_row := g.cursor_row + 1 }

/-- `TerminalGrid::carriage_return` from grid.rs. -/
def TerminalGrid.carriage_return (g : TerminalGrid) : TerminalGrid :=
  { g with cursor_col := 0 }

/-- `TerminalGrid::next_line` from grid.rs. -/
def TerminalGrid.next_line (g : TerminalGrid) (n : Nat) : TerminalGrid :=
  let n := max n 1
  { g with cursor_row := min (g.cursor_row + n) (g.rows - 1), cursor_col := 0 }

/-- `TerminalGrid::prev_line` from grid.rs. -/
def TerminalGrid.prev_line (g : TerminalGrid) (n : Nat) : TerminalGrid :=
  let n := max n 1
  { g with cursor_row := g.cursor_row - n, cursor_col := 0 }

/-- `TerminalGrid::backspace` from grid.rs. -/
def TerminalGrid.backspace (g : TerminalGrid) : TerminalGrid :=
  if g.cursor_col > 0 then { g with cursor_col := g.cursor_col - 1 } else g

/-- The while loop of `TerminalGrid::tab` from grid.rs, with explicit fuel;
the caller passes fuel `cols - cursor_col`, an upper bound on the number of
iterations, so the fuel never runs out before the loop condition fails. -/
def TerminalGrid.tabWrite : Nat → TerminalGrid → Nat → ColorKind → ColorKind → Bool →
    TerminalGrid
  | 0, g, _, _, _, _ => g
  | fuel + 1, g, next, fg, bg, u =>
    if g.cursor_col < g.cols ∧ g.cursor_col < next then
      TerminalGrid.tabWrite fuel
        { g.set_cell g.cursor_row g.cursor_col ' ' fg bg u false with
          cursor_col := g.cursor_col + 1 }
        next fg bg u
    else g

/-- `TerminalGrid::tab` from grid.rs. -/
def TerminalGrid.tab (g : TerminalGrid) : TerminalGrid :=
  let next := (g.cursor_col / TAB_SIZE + 1) * TAB_SIZE
  let g' := TerminalGrid.tabWrite (g.cols - g.cursor_col) g next g.attr_fg g.attr_bg
    g.cur_underline
  if g'.cursor_col ≥ g'.cols then ({ g' with cursor_col := 0 }).newline
  else g'

/-- The trailing wrap check shared by both printing paths of
`TerminalGrid::put_char` from grid.rs: if the column ran past the last
column, return to column 0 and feed a line. -/
def TerminalGrid.put_tail (g : TerminalGrid) : TerminalGrid :=
  if g.cursor_col ≥ g.cols then ({ g with cursor_col := 0 }).newline else g

/-- The width-1 path of `TerminalGrid::put_char` from grid.rs. -/
def TerminalGrid.put_char_narrow (g : TerminalGrid) (ch : Char)
    (fg bg : ColorKind) (u : Bool) : TerminalGrid :=
  let g := g.clear_wide_at g.cursor_row g.cursor_col
  let g := g.set_cell g.cursor_row g.cursor_col ch fg bg u false
  let g := { g with cursor_col := g.cursor_col + 1, last_printable := some ch }
  g.put_tail

/-- The width-2 path of `TerminalGrid::put_char` from grid.rs: wrap first
when the pair does not fit, place the lead cell, place the continuation
cell when a column remains, advance by two. -/
def TerminalGrid.put_char_wide (g : TerminalGrid) (ch : Char)
    (fg bg : ColorKind) (u : Bool) : TerminalGrid :=
  let wrapped := g.cursor_col + 1 ≥ g.cols
  let g := if wrapped then ({ g with cursor_col := 0 }).newline else g
  if wrapped ∧ g.cursor_row ≥ g.rows then g
  else
    let g := g.clear_wide_at g.cursor_row g.cursor_col
    let g := g.set_cell g.cursor_row g.cursor_col ch fg bg u false
    let g :=
      if g.cursor_col + 1 < g.cols then
        (g.clear_wide_at g.cursor_row (g.cursor_col + 1)).set_cell
          g.cursor_row (g.cursor_col + 1) ' ' fg bg u true
      else g
    let g := { g with cursor_col := g.cursor_col + 2, last_printable := some ch }
    g.put_tail

/-- `TerminalGrid::put_char` from grid.rs. -/
def TerminalGrid.put_char (g : TerminalGrid) (ch : Char) : TerminalGrid :=
  if g.cursor_row ≥ g.rows ∨ g.cursor_col ≥ g.cols then g
  else
    let fg := g.attr_fg
    let bg := g.attr_bg
    let u := g.cur_underline
    let width := charWidth ch
    if width = 0 then g
    else if width ≥ 2 then g.put_char_wide ch fg bg u
    else g.put_char_narrow ch fg bg u

/-- `TerminalGrid::insert_lines` from grid.rs. -/
def TerminalGrid.insert_lines (g : TerminalGrid) (n : Nat) : TerminalGrid :=
  if g.cursor_row < g.scroll_top ∨ g.cursor_row > g.scroll_bottom then g
  else
    let n := min n (g.scroll_bottom - g.cursor_row + 1)
    let fg := g.attr_fg
    let bg := g.attr_bg
    let u := g.cur_underline
    (List.range n).foldl
      (fun g' _ =>
        let cells :=
          ((List.range' g'.cursor_row (g'.scroll_bottom - g'.cursor_row)).reverse).foldl
            (fun cs row => copySpan (row * g'.cols) ((row + 1) * g'.cols) g'.cols cs)
            g'.cells
        let cells := fillSpan (g'.cursor_row * g'.cols) g'.cols (Cell.mk ' ' fg bg u false) cells
        { g' with cells := cells })
      g

/-- `TerminalGrid::delete_lines` from grid.rs. -/
def TerminalGrid.delete_lines (g : TerminalGrid) (n : Nat) : TerminalGrid :=
  if g.cursor_row < g.scroll_top ∨ g.cursor_row > g.scroll_bottom then g
  else
    let n := min n (g.scroll_bottom - g.cursor_row + 1)
    let fg := g.attr_fg
    let bg := g.attr_bg
    let u := g.cur_underline
    (List.range n).foldl
      (fun g' _ =>
        let cells :=
          (List.range' g'.cursor_row (g'.scroll_bottom - g'.cursor_row)).foldl
            (fun cs row => copySpan ((row + 1) * g'.cols) (row * g'.cols) g'.cols cs)
            g'.cells
        let cells := fillSpan (g'.scroll_bottom * g'.cols) g'.cols (Cell.mk ' ' fg bg u false) cells
        { g' with cells := cells })
      g

/-- `TerminalGrid::insert_chars` from grid.rs. -/
def TerminalGrid.insert_chars (g : TerminalGrid) (n : Nat) : TerminalGrid :=
  let row := g.cursor_row
  if row ≥ g.rows ∨ g.cursor_col ≥ g.cols then g
  else
    let n := min n (g.cols - g.cursor_col)
    let line_start := row * g.cols
    let line_end := line_start + g.cols
    let src := line_start + g.cursor_col
    let g := { g with cells := copySpan src (src + n) (line_end - n - src) g.cells }
    (List.range' g.cursor_col n).foldl
      (fun g' col => g'.set_cell row col ' ' g'.attr_fg g'.attr_bg g'.cur_underline false)
      g

/-- `TerminalGrid::delete_chars` from grid.rs. -/
def TerminalGrid.delete_chars (g : TerminalGrid) (n : Nat) : TerminalGrid :=
  let row := g.cursor_row
  if row ≥ g.rows ∨ g.cursor_col ≥ g.cols then g
  else
    let n := min n (g.cols - g.cursor_col)
    let line_start := row * g.cols
    let line_end := line_start + g.cols
    let dst := line_start + g.cursor_col
    let g := { g with cells := copySpan (dst + n) dst (line_end - (dst + n)) g.cells }
    (List.range' (g.cols - n) n).foldl
      (fun g' col => g'.set_cell row col ' ' g'.attr_fg g'.attr_bg g'.cur_underline false)
      g

/-- `TerminalGrid::erase_chars` from grid.rs. -/
def TerminalGrid.erase_chars (g : TerminalGrid) (n : Nat) : TerminalGrid :=
  let row := g.cursor_row
  if row ≥ g.rows ∨ g.cursor_col ≥ g.cols then g
  else
    let n := min n (g.cols - g.cursor_col)
    (List.range' g.cursor_col n).foldl
      (fun g' col => g'.set_cell row col ' ' g'.attr_fg g'.attr_bg g'.cur_underline false)
      g

/-- The repetition loop of `TerminalGrid::repeat_last` from grid.rs. -/
def TerminalGrid.iterPut : TerminalGrid → Char → Nat → TerminalGrid
  | g, _, 0 => g
  | g, ch, n + 1 => TerminalGrid.iterPut (g.put_char ch) ch n

/-- `TerminalGrid::repeat_last` from grid.rs. -/
def TerminalGrid.repeat_last (g : TerminalGrid) (n : Nat) : TerminalGrid :=
  match g.last_printable with
  | some ch => g.iterPut ch (max n 1)
  | none => g

/-- `TerminalGrid::param` from grid.rs: the `idx`-th parameter group's first
sub-parameter, or `default` when the group is missing or empty. -/
def paramAt (params : List (List Nat)) (idx : Nat) (default : Nat) : Nat :=
  (((params.drop idx).head?).bind List.head?).getD default

/-- `TerminalGrid::csi_count` from grid.rs. -/
def csi_count (params : List (List Nat)) (idx : Nat) : Nat :=
  let n := paramAt params idx 1
  if n = 0 then 1 else n

/-- `TerminalGrid::csi_position` from grid.rs. -/
def csi_position (params : List (List Nat)) (idx mx : Nat) : Nat :=
  let v := paramAt params idx 1
  let v := if v = 0 then 1 else v
  min (v - 1) mx

/-- `TerminalGrid::erase_display` from grid.rs; the slice bounds mirror the
live vector length `cells_len`. -/
def TerminalGrid.erase_display (g : TerminalGrid) (mode : Nat) : TerminalGrid :=
  if mode = 2 then g.clear
  else if mode = 3 then g.clear
  else if mode = 0 then
    let idx := g.cell_index g.cursor_row g.cursor_col
    let b := g.blank_cell
    { g with cells := fun j => if idx ≤ j ∧ j < g.cells_len then b else g.cells j }
  else if mode = 1 then
    let idx := g.cell_index g.cursor_row g.cursor_col
    let b := g.blank_cell
    { g with cells := fun j => if j ≤ idx then b else g.cells j }
  else g

/-- `TerminalGrid::erase_line` from grid.rs. -/
def TerminalGrid.erase_line (g : TerminalGrid) (mode : Nat) : TerminalGrid :=
  let row_start := g.cursor_row * g.cols
  if mode = 2 then
    { g with cells := fillSpan row_start g.cols g.blank_cell g.cells }
  else if mode = 0 then
    let idx := row_start + g.cursor_col
    let b := g.blank_cell
    let cells := fun j => if idx ≤ j ∧ j < row_start + g.cols then b else g.cells j
    { g with cells := cells }
  else if mode = 1 then
    let idx := row_start + g.cursor_col
    let b := g.blank_cell
    let cells := fun j => if row_start ≤ j ∧ j ≤ idx then b else g.cells j
    { g with cells := cells }
  else g

/-- `TerminalGrid::reset_attributes` from grid.rs. -/
def TerminalGrid.reset_attributes (g : TerminalGrid) : TerminalGrid :=
  { g with
    cur_fg_kind := .Default
    cur_bg_kind := .Default
    cur_bold := false
    cur_underline := false
    cur_inverse := false }

/-- The `while` loop of `TerminalGrid::apply_sgr` from grid.rs, over the
flattened first sub-parameters `v` with explicit running index `i`, exactly
as the source walks `params_vec`.  SGR 1 and 3 (and 22, 23) are
deliberately ignored by the source ("Ignore bold/italic so output stays
regular"); 38/48 consume their extended color arguments (and bump `i` by
2 or 4 more) exactly when enough parameters follow, mirroring the guarded
match arms.  The fuel, `v.length` at the call site, bounds the iteration
count, which never exceeds it since `i` grows by at least 1 per round. -/
def TerminalGrid.sgr_step (g : TerminalGrid) (v : List Nat) (i : Nat) :
    TerminalGrid × Nat :=
  if v.getD i 0 = 0 then (g.reset_attributes, i + 1)
  else if v.getD i 0 = 1 ∨ v.getD i 0 = 3 then (g, i + 1)
  else if v.getD i 0 = 4 then ({ g with cur_underline := true }, i + 1)
  else if v.getD i 0 = 7 then ({ g with cur_inverse := true }, i + 1)
  else if v.getD i 0 = 22 ∨ v.getD i 0 = 23 then (g, i + 1)
  else if v.getD i 0 = 24 then ({ g with cur_underline := false }, i + 1)
  else if v.getD i 0 = 27 then ({ g with cur_inverse := false }, i + 1)
  else if 30 ≤ v.getD i 0 ∧ v.getD i 0 ≤ 37 then
    ({ g with cur_fg_kind := .Ansi (v.getD i 0 - 30) }, i + 1)
  else if 40 ≤ v.getD i 0 ∧ v.getD i 0 ≤ 47 then
    ({ g with cur_bg_kind := .Ansi (v.getD i 0 - 40) }, i + 1)
  else if 90 ≤ v.getD i 0 ∧ v.getD i 0 ≤ 97 then
    ({ g with cur_fg_kind := .Ansi (v.getD i 0 - 90 + 8) }, i + 1)
  else if 100 ≤ v.getD i 0 ∧ v.getD i 0 ≤ 107 then
    ({ g with cur_bg_kind := .Ansi (v.getD i 0 - 100 + 8) }, i + 1)
  else if v.getD i 0 = 39 then ({ g with cur_fg_kind := .Default }, i + 1)
  else if v.getD i 0 = 49 then ({ g with cur_bg_kind := .Default }, i + 1)
  else if v.getD i 0 = 38 ∨ v.getD i 0 = 48 then
    if v.getD (i + 1) 0 = 5 ∧ i + 2 < v.length then
      if v.getD i 0 = 38 then
        ({ g with cur_fg_kind := .Xterm (v.getD (i + 2) 0 % 256) }, i + 3)
      else ({ g with cur_bg_kind := .Xterm (v.getD (i + 2) 0 % 256) }, i + 3)
    else if v.getD (i + 1) 0 = 2 ∧ i + 4 < v.length then
      if v.getD i 0 = 38 then
        ({ g with cur_fg_kind := .Rgb ⟨v.getD (i + 2) 0 % 256, v.getD (i + 3) 0 % 256, v.getD (i + 4) 0 % 256⟩ }, i + 5)
      else
        ({ g with cur_bg_kind := .Rgb ⟨v.getD (i + 2) 0 % 256, v.getD (i + 3) 0 % 256, v.getD (i + 4) 0 % 256⟩ }, i + 5)
    else (g, i + 1)
  else (g, i + 1)

/-- The driver of the SGR `while` loop: step while `i` is in range. -/
def TerminalGrid.sgr_loop : Nat → TerminalGrid → List Nat → Nat → TerminalGrid
  | 0, g, _, _ => g
  | fuel + 1, g, v, i =>
    if i < v.length then
      TerminalGrid.sgr_loop fuel (TerminalGrid.sgr_step g v i).1 v
        (TerminalGrid.sgr_step g v i).2
    else g

/-- `TerminalGrid::apply_sgr` from grid.rs: reset on an empty parameter
list, otherwise run the loop over the first sub-parameter of every group. -/
def TerminalGrid.apply_sgr (g : TerminalGrid) (params : List (List Nat)) : TerminalGrid :=
  if params = [] then g.reset_attributes
  else
    let params_vec := params.filterMap List.head?
    TerminalGrid.sgr_loop params_vec.length g params_vec 0

/-- `TerminalGrid::set_scroll_region` from grid.rs.  The Rust default for
the bottom parameter is `self.rows as u16`, hence the `% 2 ^ 16`. -/
def TerminalGrid.set_scroll_region (g : TerminalGrid) (params : List (List Nat)) :
    TerminalGrid :=
  let top := paramAt params 0 1
  let bottom := paramAt params 1 (g.rows % 2 ^ 16)
  let top := if top = 0 then 1 else top
  let bottom := if bottom = 0 then g.rows else bottom
  let top := min (top - 1) (g.rows - 1)
  let bottom := min (bottom - 1) (g.rows - 1)
  if top < bottom then
    { g with
      scroll_top := top
      scroll_bottom := bottom
      cursor_row := top
      cursor_col := 0 }
  else
    { g with
      scroll_top := 0
      scroll_bottom := g.rows - 1
      cursor_row := 0
      cursor_col := 0 }

/-- `TerminalGrid::ensure_alt_buffer` from grid.rs; emptiness of the Rust
`Vec` is `alt_cells_len = 0`, and the length test mirrors `len != cols*rows`. -/
def TerminalGrid.ensure_alt_buffer (g : TerminalGrid) : TerminalGrid :=
  if g.alt_cells_len ≠ g.cols * g.rows then
    { g with
      alt_cells := fun _ => Cell.default
      alt_cells_len := g.cols * g.rows
      alt_cursor_row := 0
      alt_cursor_col := 0
      alt_saved_cursor := (0, 0)
      alt_scroll_top := 0
      alt_scroll_bottom := g.rows - 1 }
  else g

/-- `TerminalGrid::swap_screens` from grid.rs. -/
def TerminalGrid.swap_screens (g : TerminalGrid) : TerminalGrid :=
  { g with
    cells := g.alt_cells
    alt_cells := g.cells
    cells_len := g.alt_cells_len
    alt_cells_len := g.cells_len
    cursor_row := g.alt_cursor_row
    alt_cursor_row := g.cursor_row
    cursor_col := g.alt_cursor_col
    alt_cursor_col := g.cursor_col
    saved_cursor := g.alt_saved_cursor
    alt_saved_cursor := g.saved_cursor
    scroll_top := g.alt_scroll_top
    alt_scroll_top := g.scroll_top
    scroll_bottom := g.alt_scroll_bottom
    alt_scroll_bottom := g.scroll_bottom
    in_alt := !g.in_alt }

/-- `TerminalGrid::enter_alternate` from grid.rs. -/
def TerminalGrid.enter_alternate (g : TerminalGrid) (save_cursor clear : Bool) :
    TerminalGrid :=
  if g.in_alt then g
  else
    let g :=
      if save_cursor then { g with saved_cursor_1049 := some (g.cursor_row, g.cursor_col) }
      else g
    let g := g.ensure_alt_buffer
    let g := g.swap_screens
    if clear then
      let g := g.clear
      { g with
        cursor_row := 0
        cursor_col := 0
        scroll_top := 0
        scroll_bottom := g.rows - 1 }
    else g

/-- `TerminalGrid::exit_alternate` from grid.rs. -/
def TerminalGrid.exit_alternate (g : TerminalGrid) (restore_cursor : Bool) :
    TerminalGrid :=
  if !g.in_alt then g
  else
    let g := g.swap_screens
    if restore_cursor then
      match g.saved_cursor_1049 with
      | some (row, col) =>
        { g with
          saved_cursor_1049 := none
          cursor_row := min row (g.rows - 1)
          cursor_col := min col (g.cols - 1) }
      | none => g
    else g

/-- `TerminalGrid::current_charset` from grid.rs. -/
def TerminalGrid.current_charset (g : TerminalGrid) : Charset :=
  if g.use_g1 then g.g1 else g.g0

/-- `TerminalGrid::select_charset` from grid.rs; `slot` and `designator`
are the raw intermediate and final bytes. -/
def TerminalGrid.select_charset (g : TerminalGrid) (slot designator : Nat) : TerminalGrid :=
  let set : Charset := if designator = 0x30 then .DecSpecial else .Ascii
  if slot = 0x28 then { g with g0 := set }
  else if slot = 0x29 then { g with g1 := set }
  else g

/-- `TerminalGrid::map_charset_char` from grid.rs. -/
def TerminalGrid.map_charset_char (g : TerminalGrid) (ch : Char) : Char :=
  match g.current_charset with
  | .Ascii => ch
  | .DecSpecial => map_dec_special ch

/-- `TerminalGrid::reset` from grid.rs (RIS). -/
def TerminalGrid.reset (g : TerminalGrid) : TerminalGrid :=
  let g := if g.in_alt then g.exit_alternate false else g
  let g :=
    { g with
      cur_fg_kind := .Default
      cur_bg_kind := .Default
      cur_bold := false
      cur_underline := false
      cur_inverse := false
      g0 := .Ascii
      g1 := .Ascii
      use_g1 := false
      cursor_visible := true
      saved_cursor := (0, 0)
      scroll_top := 0
      scroll_bottom := g.rows - 1
      last_printable := none
      default_fg := DEFAULT_FG
      default_bg := DEFAULT_BG
      cursor_color := none
      palette := fun _ => none }
  let g := g.clear
  { g with cursor_row := 0, cursor_col := 0 }

/-- `Perform::execute` for `TerminalGrid` from grid.rs: C0 control bytes. -/
def TerminalGrid.execute (g : TerminalGrid) (byte : Nat) : TerminalGrid :=
  if byte = 0x08 then g.backspace
  else if byte = 0x09 then g.tab
  else if byte = 0x0a then g.newline
  else if byte = 0x0d then g.carriage_return
  else if byte = 0x0e then { g with use_g1 := true }
  else if byte = 0x0f then { g with use_g1 := false }
  else g

/-- The private-mode loop of `TerminalGrid::execute_csi` (CSI h / CSI l). -/
def TerminalGrid.apply_modes (g : TerminalGrid) (params : List (List Nat)) (set : Bool) :
    TerminalGrid :=
  params.foldl
    (fun g' param =>
      match param.head? with
      | some p =>
        if p = 25 then { g' with cursor_visible := set }
        else if p = 47 ∨ p = 1047 then
          if set then g'.enter_alternate false false else g'.exit_alternate false
        else if p = 1049 then
          if set then g'.enter_alternate true true else g'.exit_alternate true
        else g'
      | none => g')
    g

/-- `TerminalGrid::execute_csi` from grid.rs. -/
def TerminalGrid.execute_csi (g : TerminalGrid) (final_byte : Nat)
    (params : List (List Nat)) (priv : Bool) : TerminalGrid :=
  if final_byte = 0x41 then
    { g with cursor_row := g.cursor_row - csi_count params 0 }
  else if final_byte = 0x42 then
    { g with cursor_row := min (g.cursor_row + csi_count params 0) (g.rows - 1) }
  else if final_byte = 0x43 then
    { g with cursor_col := min (g.cursor_col + csi_count params 0) (g.cols - 1) }
  else if final_byte = 0x44 then
    { g with cursor_col := g.cursor_col - csi_count params 0 }
  else if final_byte = 0x45 then g.next_line (csi_count params 0)
  else if final_byte = 0x46 then g.prev_line (csi_count params 0)
  else if final_byte = 0x47 then
    { g with cursor_col := csi_position params 0 (g.cols - 1) }
  else if final_byte = 0x64 then
    { g with cursor_row := csi_position params 0 (g.rows - 1) }
  else if final_byte = 0x48 ∨ final_byte = 0x66 then
    { g with
      cursor_row := csi_position params 0 (g.rows - 1)
      cursor_col := csi_position params 1 (g.cols - 1) }
  else if final_byte = 0x40 then g.insert_chars (csi_count params 0)
  else if final_byte = 0x50 then g.delete_chars (csi_count params 0)
  else if final_byte = 0x58 then g.erase_chars (csi_count params 0)
  else if final_byte = 0x4A then g.erase_display (paramAt params 0 0)
  else if final_byte = 0x4B then g.erase_line (paramAt params 0 0)
  else if final_byte = 0x4C then g.insert_lines (csi_count params 0)
  else if final_byte = 0x4D then g.delete_lines (csi_count params 0)
  else if final_byte = 0x53 then g.scroll_up (csi_count params 0)
  else if final_byte = 0x54 then g.scroll_down (csi_count params 0)
  else if final_byte = 0x62 then g.repeat_last (csi_count params 0)
  else if final_byte = 0x73 then
    { g with saved_cursor := (g.cursor_row, g.cursor_col) }
  else if final_byte = 0x75 then
    { g with
      cursor_row := min g.saved_cursor.1 (g.rows - 1)
      cursor_col := min g.saved_cursor.2 (g.cols - 1) }
  else if final_byte = 0x72 then g.set_scroll_region params
  else if final_byte = 0x6D then g.apply_sgr params
  else if final_byte = 0x68 ∨ final_byte = 0x6C then
    if priv then g.apply_modes params (final_byte = 0x68) else g
  else g

/-- Decimal parsing of an ASCII byte string, embedding
`std::str::from_utf8` followed by `str::parse::<u16>` in grid.rs:
digits only, non-empty, value at most 65535. -/
def parseU16 (bytes : List Nat) : Option Nat :=
  if bytes = [] then none
  else if bytes.all (fun b => decide (48 ≤ b ∧ b ≤ 57)) then
    let n := bytes.foldl (fun acc b => acc * 10 + (b - 48)) 0
    if n ≤ 65535 then some n else none
  else none

/-- Decimal parsing of an ASCII byte string, embedding
`str::parse::<usize>` in grid.rs (digits only, non-empty; the 64-bit
overflow bound is not modelled, every parsed index is compared against
256 right after). -/
def parseUsize (bytes : List Nat) : Option Nat :=
  if bytes = [] then none
  else if bytes.all (fun b => decide (48 ≤ b ∧ b ≤ 57)) then
    some (bytes.foldl (fun acc b => acc * 10 + (b - 48)) 0)
  else none

/-- Value of an ASCII hexadecimal digit byte. -/
def hexVal (b : Nat) : Option Nat :=
  if 48 ≤ b ∧ b ≤ 57 then some (b - 48)
  else if 97 ≤ b ∧ b ≤ 102 then some (b - 87)
  else if 65 ≤ b ∧ b ≤ 70 then some (b - 55)
  else none

/-- Modelled from the spec: `parse_color_spec` lives in
src/terminal/color.rs but is missing from the provided copy of that file.
Per the spec it accepts `#RRGGBB` and `rgb:RR/GG/BB` color specifications
(here in their two-hex-digits-per-component forms) and fails otherwise. -/
def parse_color_spec (bytes : List Nat) : Option Color32 :=
  match bytes with
  | [35, r1, r2, g1, g2, b1, b2] =>
    match hexVal r1, hexVal r2, hexVal g1, hexVal g2, hexVal b1, hexVal b2 with
    | some a, some b, some c, some d, some e, some f =>
      some ⟨a * 16 + b, c * 16 + d, e * 16 + f⟩
    | _, _, _, _, _, _ => none
  | [114, 103, 98, 58, r1, r2, 47, g1, g2, 47, b1, b2] =>
    match hexVal r1, hexVal r2, hexVal g1, hexVal g2, hexVal b1, hexVal b2 with
    | some a, some b, some c, some d, some e, some f =>
      some ⟨a * 16 + b, c * 16 + d, e * 16 + f⟩
    | _, _, _, _, _, _ => none
  | _ => none

/-- Point update of the palette (`self.palette[idx] = v` in grid.rs). -/
def updPalette (p : Nat → Option Color32) (i : Nat) (v : Option Color32) :
    Nat → Option Color32 :=
  fun j => if j = i then v else p j

/-- One `(index, spec)` pair of OSC 4 in grid.rs: skip indices at or above
256, `?` queries and unparsable specs, otherwise override the palette slot. -/
def TerminalGrid.osc4_apply (g : TerminalGrid) (a b : List Nat) : TerminalGrid :=
  match parseUsize a with
  | some idx =>
    if idx ≥ 256 then g
    else if b = [63] then g
    else
      match parse_color_spec b with
      | some color => { g with palette := updPalette g.palette idx (some color) }
      | none => g
  | none => g

/-- The pair loop of OSC 4 in grid.rs: consume `(index, spec)` pairs two at
a time; a trailing unpaired item is ignored. -/
def TerminalGrid.osc4_pairs : TerminalGrid → List (List Nat) → TerminalGrid
  | g, a :: b :: rest => TerminalGrid.osc4_pairs (g.osc4_apply a b) rest
  | g, _ => g

/-- `Perform::osc_dispatch` for `TerminalGrid` from grid.rs. -/
def TerminalGrid.osc_dispatch (g : TerminalGrid) (params : List (List Nat)) :
    TerminalGrid :=
  match params with
  | [] => g
  | cmd :: rest =>
    match parseU16 cmd with
    | none => g
    | some cmd_num =>
      if cmd_num = 0 ∨ cmd_num = 2 then g
      else if cmd_num = 4 then
        if rest = [] then g else g.osc4_pairs rest
      else if 10 ≤ cmd_num ∧ cmd_num ≤ 12 then
        match rest.head? with
        | none => g
        | some spec =>
          if spec = [63] then g
          else
            match parse_color_spec spec with
            | some color =>
              if cmd_num = 10 then { g with default_fg := color }
              else if cmd_num = 11 then { g with default_bg := color }
              else if cmd_num = 12 then { g with cursor_color := some color }
              else g
            | none => g
      else if cmd_num = 104 then
        if rest = [] then { g with palette := fun _ => none }
        else
          rest.foldl
            (fun g' item =>
              match parseUsize item with
              | some idx =>
                if idx < 256 then { g' with palette := updPalette g'.palette idx none }
                else g'
              | none => g')
            g
      else if cmd_num = 110 then { g with default_fg := DEFAULT_FG }
      else if cmd_num = 111 then { g with default_bg := DEFAULT_BG }
      else if cmd_num = 112 then { g with cursor_color := none }
      else g

/-- `Perform::esc_dispatch` for `TerminalGrid` from grid.rs. -/
def TerminalGrid.esc_dispatch (g : TerminalGrid) (intermediates : List Nat)
    (byte : Nat) : TerminalGrid :=
  match intermediates with
  | [] =>
    if byte = 0x44 then g.newline
    else if byte = 0x4D then
      if g.cursor_row ≤ g.scroll_top then g.scroll_down 1
      else { g with cursor_row := g.cursor_row - 1 }
    else if byte = 0x45 then g.newline.carriage_return
    else if byte = 0x63 then g.reset
    else if byte = 0x37 then { g with saved_cursor := (g.cursor_row, g.cursor_col) }
    else if byte = 0x38 then
      { g with
        cursor_row := min g.saved_cursor.1 (g.rows - 1)
        cursor_col := min g.saved_cursor.2 (g.cols - 1) }
    else g
  | [i] => if i = 0x28 ∨ i = 0x29 then g.select_charset i byte else g
  | _ => g

/-- `TerminalGrid::resize` from grid.rs. -/
def TerminalGrid.resize (g : TerminalGrid) (cols rows : Nat) : TerminalGrid × Bool :=
  let cols := max cols 1
  let rows := max rows 1
  if cols = g.cols ∧ rows = g.rows then (g, false)
  else
    let g :=
      { g with
        cols := cols
        rows := rows
        cells := fun _ => Cell.default
        cells_len := cols * rows
        cursor_row := min g.cursor_row (rows - 1)
        cursor_col := min g.cursor_col (cols - 1)
        scroll_top := 0
        scroll_bottom := rows - 1 }
    let g :=
      if g.alt_cells_len ≠ 0 then
        { g with alt_cells := fun _ => Cell.default, alt_cells_len := cols * rows }
      else g
    let g :=
      { g with
        alt_cursor_row := min g.alt_cursor_row (rows - 1)
        alt_cursor_col := min g.alt_cursor_col (cols - 1)
        alt_scroll_top := 0
        alt_scroll_bottom := rows - 1 }
    (g, true)

/-- A parser callback of the `vte::Perform` interface, as dispatched to
`TerminalGrid` by the external `vte` parser from `write_bytes`.  CSI and
OSC parameters are byte-accurate lists; `hook`, `put` and `unhook` (DCS)
are no-ops in grid.rs but are kept for completeness. -/
inductive Action where
  | print (c : Char)
  | execute (b : Nat)
  | csi (params : List (List Nat)) (intermediates : List Nat) (ignore : Bool) (c : Char)
  | esc (intermediates : List Nat) (ignore : Bool) (b : Nat)
  | osc (params : List (List Nat)) (bell_terminated : Bool)
  | hook (params : List (List Nat)) (intermediates : List Nat) (ignore : Bool) (c : Char)
  | put (b : Nat)
  | unhook
deriving DecidableEq

/-- One `vte::Perform` callback applied to the grid, from the `impl Perform
for TerminalGrid` block of grid.rs; `csi_dispatch` checks the `?` private
marker and truncates the final character to a byte (`c as u8`). -/
def TerminalGrid.step (g : TerminalGrid) (a : Action) : TerminalGrid :=
  match a with
  | .print c => g.put_char (g.map_charset_char c)
  | .execute b => g.execute b
  | .csi params intermediates ignore c =>
    if ignore then g
    else g.execute_csi (c.toNat % 256) params (intermediates.head? = some 0x3F)
  | .esc intermediates _ b => g.esc_dispatch intermediates b
  | .osc params _ => g.osc_dispatch params
  | .hook _ _ _ _ => g
  | .put _ => g
  | .unhook => g

/-- Modelled from the spec: `write_bytes` feeds each byte of the input to
the external `vte` parser, which turns the byte stream into a sequence of
`Perform` callbacks (print, execute, csi, esc, osc, hook, put, unhook) on
the grid.  The parser is not part of this repository, so a byte stream is
modelled by the resulting callback sequence; quantifying over all action
sequences covers every input byte sequence. -/
def TerminalGrid.run (g : TerminalGrid) (acts : List Action) : TerminalGrid :=
  acts.foldl TerminalGrid.step g

/-- The grid-shape well-formedness invariant maintained by the screen
engine: positive dimensions, cursor inside the grid, scroll bounds and the
alternate buffer's cursor and scroll bounds inside the grid. -/
def WF (g : TerminalGrid) : Prop :=
  1 ≤ g.cols ∧ 1 ≤ g.rows ∧
  g.cursor_row < g.rows ∧ g.cursor_col < g.cols ∧
  g.scroll_top < g.rows ∧ g.scroll_bottom < g.rows ∧
  g.alt_cursor_row < g.rows ∧ g.alt_cursor_col < g.cols ∧
  g.alt_scroll_top < g.rows ∧ g.alt_scroll_bottom < g.rows

instance (g : TerminalGrid) : Decidable (WF g) := by
  unfold WF; infer_instance

/-- Two grids that agree on every field except possibly the live cell
buffer. -/
def EqExceptCells (g g' : TerminalGrid) : Prop :=
  ∃ cs, g' = { g with cells := cs }

/-- The fields an action can never touch unless it switches screens,
resets, or resizes: the dimensions, the whole alternate-screen state and
the saved 1049 cursor. -/
def MainFrame (g g' : TerminalGrid) : Prop :=
  g'.rows = g.rows ∧ g'.cols = g.cols ∧ g'.cells_len = g.cells_len ∧
  g'.alt_cells = g.alt_cells ∧ g'.alt_cells_len = g.alt_cells_len ∧
  g'.alt_cursor_row = g.alt_cursor_row ∧ g'.alt_cursor_col = g.alt_cursor_col ∧
  g'.alt_saved_cursor = g.alt_saved_cursor ∧ g'.alt_scroll_top = g.alt_scroll_top ∧
  g'.alt_scroll_bottom = g.alt_scroll_bottom ∧ g'.in_alt = g.in_alt ∧
  g'.saved_cursor_1049 = g.saved_cursor_1049

/-- Two grids that agree on every field except possibly the palette and the
dynamic default/cursor colors — all an OSC dispatch can touch. -/
def OscShape (g g' : TerminalGrid) : Prop :=
  ∃ pal dfg dbg cc, g' =
    { g with palette := pal, default_fg := dfg, default_bg := dbg, cursor_color := cc }

/-- An action that touches neither the alternate-screen bookkeeping nor the
saved 1049 cursor: anything but RIS (ESC c) and private CSI h/l carrying
mode 47, 1047 or 1049. -/
def Action.benign : Action → Bool
  | .csi params intermediates ignore c =>
    ignore ||
    !(intermediates.head? = some 0x3F : Bool) ||
    !(c.toNat % 256 = 0x68 ∨ c.toNat % 256 = 0x6C : Bool) ||
    params.all (fun p => !(p.head? = some 47 ∨ p.head? = some 1047 ∨ p.head? = some 1049 : Bool))
  | .esc intermediates _ b => !(intermediates = [] ∧ b = 0x63 : Bool)
  | _ => true

/-- A key of the UI toolkit, embedding the `egui::Key` values used by
src/keymap.rs (letter keys, the editing and arrow keys, function keys),
plus a constructor for any other key, carried by its name. -/
inductive Key where
  | letter (c : Char)
  | Enter
  | Backspace
  | Tab
  | ArrowUp
  | ArrowDown
  | ArrowRight
  | ArrowLeft
  | F (n : Nat)
  | other (name : List Char)
deriving DecidableEq

/-- Modelled from the spec: `egui::Key::name` (external crate) as consumed
by src/keymap.rs — a single uppercase letter for letter keys, `F` followed
by the decimal number for function keys.  Names are ASCII, given as
character lists. -/
def Key.name : Key → List Char
  | .letter c => [c]
  | .Enter => ['E', 'n', 't', 'e', 'r']
  | .Backspace => ['B', 'a', 'c', 'k', 's', 'p', 'a', 'c', 'e']
  | .Tab => ['T', 'a', 'b']
  | .ArrowUp => ['A', 'r', 'r', 'o', 'w', 'U', 'p']
  | .ArrowDown => ['A', 'r', 'r', 'o', 'w', 'D', 'o', 'w', 'n']
  | .ArrowRight => ['A', 'r', 'r', 'o', 'w', 'R', 'i', 'g', 'h', 't']
  | .ArrowLeft => ['A', 'r', 'r', 'o', 'w', 'L', 'e', 'f', 't']
  | .F n => 'F' :: Nat.toDigits 10 n
  | .other name => name

/-- Decimal parsing of an ASCII character list, embedding
`str::parse::<u8>` in src/keymap.rs: digits only, non-empty, at most 255. -/
def parseU8 (cs : List Char) : Option Nat :=
  if cs = [] then none
  else if cs.all (fun c => decide (48 ≤ c.toNat ∧ c.toNat ≤ 57)) then
    let n := cs.foldl (fun acc c => acc * 10 + (c.toNat - 48)) 0
    if n ≤ 255 then some n else none
  else none

/-- `ctrl_key_byte` from src/keymap.rs: the key's name must be a single
ASCII uppercase letter, which is mapped to its control byte. -/
def ctrl_key_byte (key : Key) : Option Nat :=
  match key.name with
  | [b] => if 65 ≤ b.toNat ∧ b.toNat ≤ 90 then some (b.toNat - 65 + 1) else none
  | _ => none

/-- `push_key_bytes` from src/keymap.rs: the bytes appended to the output
for a non-Ctrl key press, and whether the key was handled. -/
def push_key_bytes (key : Key) : List Nat × Bool :=
  match key with
  | .Enter => ([0x0D], true)
  | .Backspace => ([0x7F], true)
  | .Tab => ([0x09], true)
  | .ArrowUp => ([0x1B, 0x5B, 0x41], true)
  | .ArrowDown => ([0x1B, 0x5B, 0x42], true)
  | .ArrowRight => ([0x1B, 0x5B, 0x43], true)
  | .ArrowLeft => ([0x1B, 0x5B, 0x44], true)
  | k =>
    match k.name with
    | 'F' :: rest =>
      match parseU8 rest with
      | some n =>
        if 1 ≤ n ∧ n ≤ 10 then
          if n ≤ 4 then ([0x1B, 0x4F, 0x50 + (n - 1)], true)
          else
            let code := [15, 17, 18, 19, 20, 21].getD (n - 5) 0
            ([0x1B, 0x5B, 0x30 + code / 10, 0x30 + code % 10, 0x7E], true)
        else ([], false)
      | none => ([], false)
    | _ => ([], false)

/-! ### Frame lemmas: which fields each operation can change -/

theorem sgr_shape_ite {g : TerminalGrid} {c : Prop} [Decidable c]
    {a b : TerminalGrid × Nat}
    (ha : ∃ fgk bgk bold ul inv j, a =
      ({ g with cur_fg_kind := fgk, cur_bg_kind := bgk, cur_bold := bold, cur_underline := ul, cur_inverse := inv }, j))
    (hb : ∃ fgk bgk bold ul inv j, b =
      ({ g with cur_fg_kind := fgk, cur_bg_kind := bgk, cur_bold := bold, cur_underline := ul, cur_inverse := inv }, j)) :
    ∃ fgk bgk bold ul inv j, (if c then a else b) =
      ({ g with cur_fg_kind := fgk, cur_bg_kind := bgk, cur_bold := bold, cur_underline := ul, cur_inverse := inv }, j) := by
  split <;> assumption

theorem eqec_refl (g : TerminalGrid) : EqExceptCells g g := ⟨g.cells, rfl⟩

theorem eqec_trans {g g' g'' : TerminalGrid} (h1 : EqExceptCells g g')
    (h2 : EqExceptCells g' g'') : EqExceptCells g g'' := by
  obtain ⟨cs1, rfl⟩ := h1
  obtain ⟨cs2, rfl⟩ := h2
  exact ⟨cs2, rfl⟩

theorem eqec_withCells {g g' : TerminalGrid} (h : EqExceptCells g g')
    (cs : Nat → Cell) : EqExceptCells g { g' with cells := cs } := by
  obtain ⟨cs0, rfl⟩ := h
  exact ⟨cs, rfl⟩

theorem eqec_ite {g a b : TerminalGrid} {c : Prop} [Decidable c]
    (h1 : EqExceptCells g a) (h2 : EqExceptCells g b) :
    EqExceptCells g (if c then a else b) := by
  split <;> assumption

theorem foldl_eqec {α : Type} {f : TerminalGrid → α → TerminalGrid}
    (hf : ∀ g a, EqExceptCells g (f g a)) :
    ∀ (l : List α) (g : TerminalGrid), EqExceptCells g (l.foldl f g)
  | [], g => eqec_refl g
  | a :: l, g => by
    simpa using eqec_trans (hf g a) (foldl_eqec hf l (f g a))

theorem mainFrame_refl (g : TerminalGrid) : MainFrame g g := by
  simp [MainFrame]

theorem mainFrame_trans {g g' g'' : TerminalGrid} (h1 : MainFrame g g')
    (h2 : MainFrame g' g'') : MainFrame g g'' := by
  unfold MainFrame at *
  refine ⟨?_, ?_, ?_, ?_, ?_, ?_, ?_, ?_, ?_, ?_, ?_, ?_⟩ <;> simp_all

theorem eqec_mainFrame {g g' : TerminalGrid} (h : EqExceptCells g g') :
    MainFrame g g' := by
  obtain ⟨cs, rfl⟩ := h
  simp [MainFrame]

theorem mainFrame_ite {g a b : TerminalGrid} {c : Prop} [Decidable c]
    (h1 : MainFrame g a) (h2 : MainFrame g b) :
    MainFrame g (if c then a else b) := by
  split <;> assumption

theorem set_cell_eqec (g : TerminalGrid) (row col : Nat) (ch : Char)
    (fg bg : ColorKind) (u ct : Bool) :
    EqExceptCells g (g.set_cell row col ch fg bg u ct) := by
  simp only [TerminalGrid.set_cell]
  split
  · exact ⟨_, rfl⟩
  · exact eqec_refl g

theorem set_blank_cell_eqec (g : TerminalGrid) (row col : Nat) :
    EqExceptCells g (g.set_blank_cell row col) :=
  set_cell_eqec g row col ' ' g.attr_fg g.attr_bg g.cur_underline false

theorem clear_wide_at_eqec (g : TerminalGrid) (row col : Nat) :
    EqExceptCells g (g.clear_wide_at row col) := by
  simp only [TerminalGrid.clear_wide_at]
  split
  · exact eqec_refl g
  · refine eqec_ite (eqec_trans ?_ (set_blank_cell_eqec _ row (col + 1))) ?_ <;>
      exact eqec_ite (eqec_withCells (eqec_ite (set_blank_cell_eqec g row (col - 1))
        (eqec_refl g)) _) (eqec_refl g)

theorem scroll_up_eqec (g : TerminalGrid) (n : Nat) :
    EqExceptCells g (g.scroll_up n) := by
  simp only [TerminalGrid.scroll_up]
  split
  · exact eqec_refl g
  · exact foldl_eqec (fun g' _ => ⟨_, rfl⟩) _ g

theorem scroll_down_eqec (g : TerminalGrid) (n : Nat) :
    EqExceptCells g (g.scroll_down n) := by
  simp only [TerminalGrid.scroll_down]
  split
  · exact eqec_refl g
  · exact foldl_eqec (fun g' _ => ⟨_, rfl⟩) _ g

theorem insert_lines_eqec (g : TerminalGrid) (n : Nat) :
    EqExceptCells g (g.insert_lines n) := by
  simp only [TerminalGrid.insert_lines]
  split
  · exact eqec_refl g
  · exact foldl_eqec (fun g' _ => ⟨_, rfl⟩) _ g

theorem delete_lines_eqec (g : TerminalGrid) (n : Nat) :
    EqExceptCells g (g.delete_lines n) := by
  simp only [TerminalGrid.delete_lines]
  split
  · exact eqec_refl g
  · exact foldl_eqec (fun g' _ => ⟨_, rfl⟩) _ g

theorem insert_chars_eqec (g : TerminalGrid) (n : Nat) :
    EqExceptCells g (g.insert_chars n) := by
  simp only [TerminalGrid.insert_chars]
  split
  · exact eqec_refl g
  · exact eqec_trans ⟨_, rfl⟩
      (foldl_eqec (fun g' col => set_cell_eqec g' _ col ' ' _ _ _ false) _ _)

theorem delete_chars_eqec (g : TerminalGrid) (n : Nat) :
    EqExceptCells g (g.delete_chars n) := by
  simp only [TerminalGrid.delete_chars]
  split
  · exact eqec_refl g
  · exact eqec_trans ⟨_, rfl⟩
      (foldl_eqec (fun g' col => set_cell_eqec g' _ col ' ' _ _ _ false) _ _)

theorem erase_chars_eqec (g : TerminalGrid) (n : Nat) :
    EqExceptCells g (g.erase_chars n) := by
  simp only [TerminalGrid.erase_chars]
  split
  · exact eqec_refl g
  · exact foldl_eqec (fun g' col => set_cell_eqec g' _ col ' ' _ _ _ false) _ _

theorem erase_line_eqec (g : TerminalGrid) (mode : Nat) :
    EqExceptCells g (g.erase_line mode) := by
  simp only [TerminalGrid.erase_line]
  split
  · exact ⟨_, rfl⟩
  split
  · exact ⟨_, rfl⟩
  split
  · exact ⟨_, rfl⟩
  · exact eqec_refl g

/-! ### Well-formedness preservation -/

theorem wf_of_eqec {g g' : TerminalGrid} (h : WF g) (e : EqExceptCells g g') :
    WF g' := by
  obtain ⟨cs, rfl⟩ := e
  simpa [WF] using h

theorem mainFrame_of_shape {g g' : TerminalGrid}
    (e : ∃ cs row col lp, g' =
      { g with cells := cs, cursor_row := row, cursor_col := col, last_printable := lp }) :
    MainFrame g g' := by
  obtain ⟨cs, row, col, lp, rfl⟩ := e
  simp [MainFrame]

theorem newline_shape (g : TerminalGrid) (h : WF g) :
    ∃ cs row, row < g.rows ∧
      g.newline = { g with cells := cs, cursor_row := row } := by
  unfold TerminalGrid.newline
  split
  · obtain ⟨cs, e⟩ := scroll_up_eqec g 1
    exact ⟨cs, g.cursor_row, h.2.2.1, by rw [e]⟩
  · refine ⟨g.cells, g.cursor_row + 1, ?_, rfl⟩
    have := h.2.2.2.2.2.1
    omega

theorem wf_newline (g : TerminalGrid) (h : WF g) : WF g.newline := by
  obtain ⟨cs, row, hrow, e⟩ := newline_shape g h
  rw [e]
  simp only [WF] at h ⊢
  simp_all

theorem tabWrite_shape (fuel : Nat) :
    ∀ (g : TerminalGrid) (next : Nat) (fg bg : ColorKind) (u : Bool),
      ∃ cs col, TerminalGrid.tabWrite fuel g next fg bg u =
        { g with cells := cs, cursor_col := col } := by
  induction fuel with
  | zero => exact fun g next fg bg u => ⟨g.cells, g.cursor_col, rfl⟩
  | succ fuel ih =>
    intro g next fg bg u
    unfold TerminalGrid.tabWrite
    split
    · obtain ⟨cs0, e0⟩ := set_cell_eqec g g.cursor_row g.cursor_col ' ' fg bg u false
      rw [e0]
      obtain ⟨cs, col, e⟩ := ih
        { { g with cells := cs0 } with cursor_col := g.cursor_col + 1 } next fg bg u
      rw [e]
      exact ⟨cs, col, rfl⟩
    · exact ⟨g.cells, g.cursor_col, rfl⟩

theorem tab_shape (g : TerminalGrid) (h : WF g) :
    ∃ cs row col, row < g.rows ∧ col < g.cols ∧
      g.tab = { g with cells := cs, cursor_row := row, cursor_col := col } := by
  simp only [TerminalGrid.tab]
  obtain ⟨cs, col, e⟩ :=
    tabWrite_shape (g.cols - g.cursor_col) g (((g.cursor_col / TAB_SIZE) + 1) * TAB_SIZE)
      g.attr_fg g.attr_bg g.cur_underline
  rw [e]
  by_cases hcol : col ≥ g.cols
  · rw [if_pos (by simpa using hcol)]
    have hwf0 : WF { g with cells := cs, cursor_col := 0 } := by
      simp only [WF] at h ⊢
      simp_all
      omega
    obtain ⟨cs2, row2, hrow2, e2⟩ :=
      newline_shape { g with cells := cs, cursor_col := 0 } hwf0
    have : ({ { g with cells := cs, cursor_col := col } with cursor_col := 0 }) =
        { g with cells := cs, cursor_col := 0 } := rfl
    rw [this, e2]
    exact ⟨cs2, row2, 0, by simpa using hrow2, h.1, rfl⟩
  · rw [if_neg (by simpa using hcol)]
    exact ⟨cs, g.cursor_row, col, h.2.2.1, by omega, rfl⟩

theorem wf_tab (g : TerminalGrid) (h : WF g) : WF g.tab := by
  obtain ⟨cs, row, col, hrow, hcol, e⟩ := tab_shape g h
  rw [e]
  simp only [WF] at h ⊢
  simp_all

theorem put_tail_shape (g X : TerminalGrid) (h : WF g)
    (hX : ∃ cs row col lp, row < g.rows ∧
      X = { g with cells := cs, cursor_row := row, cursor_col := col, last_printable := lp }) :
    ∃ cs2 row2 col2 lp2, row2 < g.rows ∧ col2 < g.cols ∧
      X.put_tail =
        { g with cells := cs2, cursor_row := row2, cursor_col := col2, last_printable := lp2 } := by
  obtain ⟨h1, h2, h3, h4, h5, h6, h7, h8, h9, h10⟩ := h
  obtain ⟨cs, row, col, lp, hrow, rfl⟩ := hX
  simp only [TerminalGrid.put_tail]
  by_cases hc : col ≥ g.cols
  · rw [if_pos (by simpa using hc)]
    have hwf : WF { g with cells := cs, cursor_row := row, cursor_col := 0, last_printable := lp } := by
      simp only [WF]
      refine ⟨h1, h2, ?_, ?_, h5, h6, h7, h8, h9, h10⟩ <;> simp_all <;> omega
    obtain ⟨cs2, row2, hrow2, e2⟩ := newline_shape _ hwf
    have eflat : ({ { g with cells := cs, cursor_row := row, cursor_col := col, last_printable := lp } with cursor_col := 0 }) =
        { g with cells := cs, cursor_row := row, cursor_col := 0, last_printable := lp } := rfl
    rw [eflat, e2]
    exact ⟨cs2, row2, 0, lp, by simpa using hrow2, by omega, rfl⟩
  · rw [if_neg (by simpa using hc)]
    exact ⟨cs, row, col, lp, hrow, by omega, rfl⟩

theorem put_char_narrow_shape (g : TerminalGrid) (ch : Char)
    (fg bg : ColorKind) (u : Bool) (h : WF g) :
    ∃ cs row col lp, row < g.rows ∧ col < g.cols ∧
      g.put_char_narrow ch fg bg u =
        { g with cells := cs, cursor_row := row, cursor_col := col, last_printable := lp } := by
  have h3 := h.2.2.1
  simp only [TerminalGrid.put_char_narrow]
  obtain ⟨cs3, e3⟩ := clear_wide_at_eqec g g.cursor_row g.cursor_col
  rw [e3]
  obtain ⟨cs4, e4⟩ := set_cell_eqec
    { g with cells := cs3 } g.cursor_row g.cursor_col ch fg bg u false
  simp only [] at e4
  rw [e4]
  exact put_tail_shape g _ h ⟨cs4, g.cursor_row, g.cursor_col + 1, some ch, h3, rfl⟩

theorem put_char_wide_shape (g : TerminalGrid) (ch : Char)
    (fg bg : ColorKind) (u : Bool) (h : WF g) :
    ∃ cs row col lp, row < g.rows ∧ col < g.cols ∧
      g.put_char_wide ch fg bg u =
        { g with cells := cs, cursor_row := row, cursor_col := col, last_printable := lp } := by
  have hwf := h
  obtain ⟨h1, h2, h3, h4, h5, h6, h7, h8, h9, h10⟩ := h
  simp only [TerminalGrid.put_char_wide]
  by_cases hw : g.cursor_col + 1 ≥ g.cols
  · rw [if_pos hw]
    have hwf0 : WF { g with cursor_col := 0 } := by
      simp only [WF]
      exact ⟨h1, h2, h3, by omega, h5, h6, h7, h8, h9, h10⟩
    obtain ⟨cs2, row2, hrow2, e2⟩ := newline_shape _ hwf0
    simp only [] at hrow2
    rw [e2]
    rw [if_neg (by simp; omega)]
    obtain ⟨cs3, e3⟩ := clear_wide_at_eqec
      { g with cells := cs2, cursor_row := row2, cursor_col := 0 } row2 0
    simp only [] at e3
    rw [e3]
    obtain ⟨cs4, e4⟩ := set_cell_eqec
      { g with cells := cs3, cursor_row := row2, cursor_col := 0 } row2 0 ch fg bg u false
    simp only [] at e4
    rw [e4]
    by_cases hc1 : (0 : Nat) + 1 < g.cols
    · rw [if_pos (by simpa using hc1)]
      obtain ⟨cs5, e5⟩ := clear_wide_at_eqec
        { g with cells := cs4, cursor_row := row2, cursor_col := 0 } row2 (0 + 1)
      simp only [] at e5
      rw [e5]
      obtain ⟨cs6, e6⟩ := set_cell_eqec
        { g with cells := cs5, cursor_row := row2, cursor_col := 0 } row2 (0 + 1) ' '
        fg bg u true
      simp only [] at e6
      rw [e6]
      exact put_tail_shape g _ hwf ⟨cs6, row2, 0 + 2, some ch, hrow2, rfl⟩
    · rw [if_neg (by simpa using hc1)]
      exact put_tail_shape g _ hwf ⟨cs4, row2, 0 + 2, some ch, hrow2, rfl⟩
  · rw [if_neg hw]
    rw [if_neg (by simp [hw])]
    obtain ⟨cs3, e3⟩ := clear_wide_at_eqec g g.cursor_row g.cursor_col
    rw [e3]
    obtain ⟨cs4, e4⟩ := set_cell_eqec
      { g with cells := cs3 } g.cursor_row g.cursor_col ch fg bg u false
    simp only [] at e4
    rw [e4]
    by_cases hc1 : g.cursor_col + 1 < g.cols
    · rw [if_pos (by simpa using hc1)]
      obtain ⟨cs5, e5⟩ := clear_wide_at_eqec
        { g with cells := cs4 } g.cursor_row (g.cursor_col + 1)
      simp only [] at e5
      rw [e5]
      obtain ⟨cs6, e6⟩ := set_cell_eqec
        { g with cells := cs5 } g.cursor_row (g.cursor_col + 1) ' ' fg bg u true
      simp only [] at e6
      rw [e6]
      exact put_tail_shape g _ hwf ⟨cs6, g.cursor_row, g.cursor_col + 2, some ch, h3, rfl⟩
    · rw [if_neg (by simpa using hc1)]
      exact put_tail_shape g _ hwf ⟨cs4, g.cursor_row, g.cursor_col + 2, some ch, h3, rfl⟩

theorem put_char_shape (g : TerminalGrid) (ch : Char) (h : WF g) :
    ∃ cs row col lp, row < g.rows ∧ col < g.cols ∧
      g.put_char ch =
        { g with cells := cs, cursor_row := row, cursor_col := col, last_printable := lp } := by
  have h3 := h.2.2.1
  have h4 := h.2.2.2.1
  simp only [TerminalGrid.put_char]
  split
  · exact ⟨g.cells, g.cursor_row, g.cursor_col, g.last_printable, h3, h4, rfl⟩
  split
  · exact ⟨g.cells, g.cursor_row, g.cursor_col, g.last_printable, h3, h4, rfl⟩
  split
  · exact put_char_wide_shape g ch _ _ _ h
  · exact put_char_narrow_shape g ch _ _ _ h

theorem wf_put_char (g : TerminalGrid) (ch : Char) (h : WF g) : WF (g.put_char ch) := by
  obtain ⟨cs, row, col, lp, hrow, hcol, e⟩ := put_char_shape g ch h
  rw [e]
  simp only [WF] at h ⊢
  simp_all

theorem iterPut_shape (ch : Char) : ∀ (n : Nat) (g : TerminalGrid), WF g →
    ∃ cs row col lp, row < g.rows ∧ col < g.cols ∧
      g.iterPut ch n =
        { g with cells := cs, cursor_row := row, cursor_col := col, last_printable := lp } := by
  intro n
  induction n with
  | zero =>
    intro g h
    exact ⟨g.cells, g.cursor_row, g.cursor_col, g.last_printable, h.2.2.1, h.2.2.2.1, rfl⟩
  | succ n ih =>
    intro g h
    obtain ⟨cs1, row1, col1, lp1, hb1, hb2, e1⟩ := put_char_shape g ch h
    have hwf1 : WF { g with cells := cs1, cursor_row := row1, cursor_col := col1, last_printable := lp1 } := by
      simp only [WF] at h ⊢
      simp_all
    obtain ⟨cs2, row2, col2, lp2, hc1, hc2, e2⟩ := ih _ hwf1
    simp only [] at hc1 hc2
    refine ⟨cs2, row2, col2, lp2, hc1, hc2, ?_⟩
    show (g.put_char ch).iterPut ch n = _
    rw [e1, e2]

theorem repeat_last_shape (g : TerminalGrid) (n : Nat) (h : WF g) :
    ∃ cs row col lp, row < g.rows ∧ col < g.cols ∧
      g.repeat_last n =
        { g with cells := cs, cursor_row := row, cursor_col := col, last_printable := lp } := by
  unfold TerminalGrid.repeat_last
  split
  · exact iterPut_shape _ _ g h
  · exact ⟨g.cells, g.cursor_row, g.cursor_col, g.last_printable, h.2.2.1, h.2.2.2.1, rfl⟩

theorem sgr_step_shape (g : TerminalGrid) (v : List Nat) (i : Nat) :
    ∃ fgk bgk bold ul inv j, TerminalGrid.sgr_step g v i =
      ({ g with cur_fg_kind := fgk, cur_bg_kind := bgk, cur_bold := bold, cur_underline := ul, cur_inverse := inv }, j) := by
  unfold TerminalGrid.sgr_step
  repeat' apply sgr_shape_ite
  all_goals exact ⟨_, _, _, _, _, _, rfl⟩

theorem sgr_loop_shape : ∀ (fuel : Nat) (g : TerminalGrid) (v : List Nat) (i : Nat),
    ∃ fgk bgk bold ul inv, TerminalGrid.sgr_loop fuel g v i =
      { g with cur_fg_kind := fgk, cur_bg_kind := bgk, cur_bold := bold, cur_underline := ul, cur_inverse := inv } := by
  intro fuel
  induction fuel with
  | zero =>
    intro g v i
    exact ⟨g.cur_fg_kind, g.cur_bg_kind, g.cur_bold, g.cur_underline, g.cur_inverse, rfl⟩
  | succ fuel ih =>
    intro g v i
    unfold TerminalGrid.sgr_loop
    split
    · obtain ⟨a1, b1, c1, d1, e1, j, hs⟩ := sgr_step_shape g v i
      rw [hs]
      obtain ⟨a, b, c, d, e', he⟩ := ih _ v j
      rw [he]
      exact ⟨_, _, _, _, _, rfl⟩
    · exact ⟨g.cur_fg_kind, g.cur_bg_kind, g.cur_bold, g.cur_underline, g.cur_inverse, rfl⟩

theorem apply_sgr_shape (g : TerminalGrid) (params : List (List Nat)) :
    ∃ fgk bgk bold ul inv, g.apply_sgr params =
      { g with cur_fg_kind := fgk, cur_bg_kind := bgk, cur_bold := bold, cur_underline := ul, cur_inverse := inv } := by
  unfold TerminalGrid.apply_sgr
  split
  · exact ⟨.Default, .Default, false, false, false, rfl⟩
  · exact sgr_loop_shape _ g _ 0

theorem osc_refl (g : TerminalGrid) : OscShape g g :=
  ⟨g.palette, g.default_fg, g.default_bg, g.cursor_color, rfl⟩

theorem osc_trans {g g' g'' : TerminalGrid} (h1 : OscShape g g')
    (h2 : OscShape g' g'') : OscShape g g'' := by
  obtain ⟨a1, b1, c1, d1, rfl⟩ := h1
  obtain ⟨a2, b2, c2, d2, rfl⟩ := h2
  exact ⟨a2, b2, c2, d2, rfl⟩

theorem osc_ite {g : TerminalGrid} {c : Prop} [Decidable c] {a b : TerminalGrid}
    (ha : OscShape g a) (hb : OscShape g b) : OscShape g (if c then a else b) := by
  split <;> assumption

theorem osc_foldl {α : Type} {f : TerminalGrid → α → TerminalGrid}
    (hf : ∀ g a, OscShape g (f g a)) :
    ∀ (l : List α) (g : TerminalGrid), OscShape g (l.foldl f g)
  | [], g => osc_refl g
  | a :: l, g => by
    simpa using osc_trans (hf g a) (osc_foldl hf l (f g a))

theorem osc4_apply_shape (g : TerminalGrid) (a b : List Nat) :
    OscShape g (g.osc4_apply a b) := by
  unfold TerminalGrid.osc4_apply
  rcases parseUsize a with _ | idx
  · exact osc_refl g
  · refine osc_ite (osc_refl g) (osc_ite (osc_refl g) ?_)
    rcases parse_color_spec b with _ | color
    · exact osc_refl g
    · exact ⟨_, _, _, _, rfl⟩

theorem osc4_pairs_shape : ∀ (l : List (List Nat)) (g : TerminalGrid),
    OscShape g (g.osc4_pairs l)
  | [], g => osc_refl g
  | [_], g => osc_refl g
  | a :: b :: rest, g => by
    simpa using osc_trans (osc4_apply_shape g a b) (osc4_pairs_shape rest (g.osc4_apply a b))

theorem osc_dispatch_shape (g : TerminalGrid) (params : List (List Nat)) :
    OscShape g (g.osc_dispatch params) := by
  unfold TerminalGrid.osc_dispatch
  rcases params with _ | ⟨cmd, rest⟩
  · exact osc_refl g
  · simp only []
    cases hpc : parseU16 cmd
    · exact osc_refl g
    · simp only []
      refine osc_ite (osc_refl g) (osc_ite ?_ (osc_ite ?_ (osc_ite ?_
        (osc_ite ⟨_, _, _, _, rfl⟩ (osc_ite ⟨_, _, _, _, rfl⟩
          (osc_ite ⟨_, _, _, _, rfl⟩ (osc_refl g)))))))
      · exact osc_ite (osc_refl g) (osc4_pairs_shape rest g)
      · cases hh : rest.head?
        · exact osc_refl g
        · simp only []
          refine osc_ite (osc_refl g) ?_
          cases hps : parse_color_spec _
          · exact osc_refl g
          · simp only []
            exact osc_ite ⟨_, _, _, _, rfl⟩ (osc_ite ⟨_, _, _, _, rfl⟩
              (osc_ite ⟨_, _, _, _, rfl⟩ (osc_refl g)))
      · refine osc_ite ⟨_, _, _, _, rfl⟩ (osc_foldl ?_ rest g)
        intro g' item
        cases hpi : parseUsize item
        · exact osc_refl g'
        · simp only []
          exact osc_ite ⟨_, _, _, _, rfl⟩ (osc_refl g')

theorem wf_of_osc {g g' : TerminalGrid} (h : WF g) (e : OscShape g g') : WF g' := by
  obtain ⟨a, b, c, d, rfl⟩ := e
  simpa [WF] using h

theorem mainFrame_of_osc {g g' : TerminalGrid} (e : OscShape g g') :
    MainFrame g g' := by
  obtain ⟨a, b, c, d, rfl⟩ := e
  simp [MainFrame]

theorem wf_ite {c : Prop} [Decidable c] {a b : TerminalGrid}
    (ha : WF a) (hb : WF b) : WF (if c then a else b) := by
  split <;> assumption

theorem wf_backspace (g : TerminalGrid) (h : WF g) : WF g.backspace := by
  unfold TerminalGrid.backspace
  refine wf_ite ?_ h
  simp only [WF] at h ⊢
  omega

theorem mainFrame_backspace (g : TerminalGrid) : MainFrame g g.backspace := by
  unfold TerminalGrid.backspace
  exact mainFrame_ite (by simp [MainFrame]) (mainFrame_refl g)

theorem wf_carriage_return (g : TerminalGrid) (h : WF g) : WF g.carriage_return := by
  simp only [TerminalGrid.carriage_return, WF] at h ⊢
  omega

theorem mainFrame_carriage_return (g : TerminalGrid) : MainFrame g g.carriage_return := by
  simp [TerminalGrid.carriage_return, MainFrame]

theorem wf_next_line (g : TerminalGrid) (n : Nat) (h : WF g) : WF (g.next_line n) := by
  simp only [TerminalGrid.next_line, WF] at h ⊢
  omega

theorem mainFrame_next_line (g : TerminalGrid) (n : Nat) : MainFrame g (g.next_line n) := by
  simp [TerminalGrid.next_line, MainFrame]

theorem wf_prev_line (g : TerminalGrid) (n : Nat) (h : WF g) : WF (g.prev_line n) := by
  simp only [TerminalGrid.prev_line, WF] at h ⊢
  omega

theorem mainFrame_prev_line (g : TerminalGrid) (n : Nat) : MainFrame g (g.prev_line n) := by
  simp [TerminalGrid.prev_line, MainFrame]

theorem mainFrame_newline (g : TerminalGrid) (h : WF g) : MainFrame g g.newline := by
  obtain ⟨cs, row, hrow, e⟩ := newline_shape g h
  rw [e]
  simp [MainFrame]

theorem mainFrame_tab (g : TerminalGrid) (h : WF g) : MainFrame g g.tab := by
  obtain ⟨cs, row, col, hr, hc, e⟩ := tab_shape g h
  rw [e]
  simp [MainFrame]

theorem mainFrame_put_char (g : TerminalGrid) (ch : Char) (h : WF g) :
    MainFrame g (g.put_char ch) := by
  obtain ⟨cs, row, col, lp, hr, hc, e⟩ := put_char_shape g ch h
  rw [e]
  simp [MainFrame]

theorem wf_repeat_last (g : TerminalGrid) (n : Nat) (h : WF g) : WF (g.repeat_last n) := by
  obtain ⟨cs, row, col, lp, hr, hc, e⟩ := repeat_last_shape g n h
  rw [e]
  simp only [WF] at h ⊢
  simp_all

theorem mainFrame_repeat_last (g : TerminalGrid) (n : Nat) (h : WF g) :
    MainFrame g (g.repeat_last n) := by
  obtain ⟨cs, row, col, lp, hr, hc, e⟩ := repeat_last_shape g n h
  rw [e]
  simp [MainFrame]

theorem wf_clear (g : TerminalGrid) (h : WF g) : WF g.clear := by
  simp only [TerminalGrid.clear, WF] at h ⊢
  omega

theorem mainFrame_clear (g : TerminalGrid) : MainFrame g g.clear := by
  simp [TerminalGrid.clear, MainFrame]

theorem wf_erase_display (g : TerminalGrid) (mode : Nat) (h : WF g) :
    WF (g.erase_display mode) := by
  unfold TerminalGrid.erase_display
  exact wf_ite (wf_clear g h) (wf_ite (wf_clear g h)
    (wf_ite (wf_of_eqec h ⟨_, rfl⟩) (wf_ite (wf_of_eqec h ⟨_, rfl⟩) h)))

theorem mainFrame_erase_display (g : TerminalGrid) (mode : Nat) :
    MainFrame g (g.erase_display mode) := by
  unfold TerminalGrid.erase_display
  exact mainFrame_ite (mainFrame_clear g) (mainFrame_ite (mainFrame_clear g)
    (mainFrame_ite (eqec_mainFrame ⟨_, rfl⟩)
      (mainFrame_ite (eqec_mainFrame ⟨_, rfl⟩) (mainFrame_refl g))))

theorem wf_apply_sgr (g : TerminalGrid) (params : List (List Nat)) (h : WF g) :
    WF (g.apply_sgr params) := by
  obtain ⟨a, b, c, d, e', e⟩ := apply_sgr_shape g params
  rw [e]
  simpa [WF] using h

theorem mainFrame_apply_sgr (g : TerminalGrid) (params : List (List Nat)) :
    MainFrame g (g.apply_sgr params) := by
  obtain ⟨a, b, c, d, e', e⟩ := apply_sgr_shape g params
  rw [e]
  simp [MainFrame]

theorem wf_set_scroll_region (g : TerminalGrid) (params : List (List Nat)) (h : WF g) :
    WF (g.set_scroll_region params) := by
  simp only [TerminalGrid.set_scroll_region]
  refine wf_ite ?_ ?_ <;> (simp only [WF] at h ⊢; omega)

theorem mainFrame_set_scroll_region (g : TerminalGrid) (params : List (List Nat)) :
    MainFrame g (g.set_scroll_region params) := by
  simp only [TerminalGrid.set_scroll_region]
  exact mainFrame_ite (by simp [MainFrame]) (by simp [MainFrame])

theorem wf_select_charset (g : TerminalGrid) (slot d : Nat) (h : WF g) :
    WF (g.select_charset slot d) := by
  simp only [TerminalGrid.select_charset]
  refine wf_ite ?_ (wf_ite ?_ h) <;> simpa [WF] using h

theorem mainFrame_select_charset (g : TerminalGrid) (slot d : Nat) :
    MainFrame g (g.select_charset slot d) := by
  simp only [TerminalGrid.select_charset]
  exact mainFrame_ite (by simp [MainFrame]) (mainFrame_ite (by simp [MainFrame])
    (mainFrame_refl g))

theorem wf_execute (g : TerminalGrid) (b : Nat) (h : WF g) : WF (g.execute b) := by
  unfold TerminalGrid.execute
  refine wf_ite (wf_backspace g h) (wf_ite (wf_tab g h) (wf_ite (wf_newline g h)
    (wf_ite (wf_carriage_return g h) (wf_ite ?_ (wf_ite ?_ h))))) <;>
    simpa [WF] using h

theorem mainFrame_execute (g : TerminalGrid) (b : Nat) (h : WF g) :
    MainFrame g (g.execute b) := by
  unfold TerminalGrid.execute
  refine mainFrame_ite (mainFrame_backspace g) (mainFrame_ite (mainFrame_tab g h)
    (mainFrame_ite (mainFrame_newline g h) (mainFrame_ite (mainFrame_carriage_return g)
      (mainFrame_ite ?_ (mainFrame_ite ?_ (mainFrame_refl g)))))) <;>
    simp [MainFrame]

theorem wf_swap_screens (g : TerminalGrid) (h : WF g) : WF g.swap_screens := by
  obtain ⟨h1, h2, h3, h4, h5, h6, h7, h8, h9, h10⟩ := h
  exact ⟨h1, h2, h7, h8, h9, h10, h3, h4, h5, h6⟩

theorem wf_ensure_alt_buffer (g : TerminalGrid) (h : WF g) : WF g.ensure_alt_buffer := by
  unfold TerminalGrid.ensure_alt_buffer
  refine wf_ite ?_ h
  simp only [WF] at h ⊢
  omega

theorem wf_enter_alternate (g : TerminalGrid) (sc cl : Bool) (h : WF g) :
    WF (g.enter_alternate sc cl) := by
  simp only [TerminalGrid.enter_alternate]
  split
  · exact h
  · have h1 : WF (if sc then { g with saved_cursor_1049 := some (g.cursor_row, g.cursor_col) } else g) :=
      wf_ite (by simpa [WF] using h) h
    have h2 := wf_swap_screens _ (wf_ensure_alt_buffer _ h1)
    refine wf_ite ?_ h2
    simp only [TerminalGrid.clear, WF] at h2 ⊢
    omega

theorem wf_exit_alternate (g : TerminalGrid) (rc : Bool) (h : WF g) :
    WF (g.exit_alternate rc) := by
  simp only [TerminalGrid.exit_alternate]
  split
  · exact h
  · have h2 := wf_swap_screens _ h
    refine wf_ite ?_ h2
    split
    · simp only [WF] at h2 ⊢
      omega
    · exact h2

theorem wf_reset (g : TerminalGrid) (h : WF g) : WF g.reset := by
  have h1 : WF (if g.in_alt then g.exit_alternate false else g) :=
    wf_ite (wf_exit_alternate g false h) h
  simp only [TerminalGrid.reset, TerminalGrid.clear]
  simp only [WF] at h1 ⊢
  omega

theorem wf_apply_modes (g : TerminalGrid) (params : List (List Nat)) (set : Bool)
    (h : WF g) : WF (g.apply_modes params set) := by
  unfold TerminalGrid.apply_modes
  induction params generalizing g with
  | nil => exact h
  | cons p rest ih =>
    simp only [List.foldl_cons]
    apply ih
    cases p.head?
    · exact h
    · simp only []
      refine wf_ite (by simpa [WF] using h) (wf_ite ?_ (wf_ite ?_ h))
      · exact wf_ite (wf_enter_alternate g false false h) (wf_exit_alternate g false h)
      · exact wf_ite (wf_enter_alternate g true true h) (wf_exit_alternate g true h)

theorem mainFrame_apply_modes (g : TerminalGrid) (params : List (List Nat)) (set : Bool)
    (hb : ∀ p ∈ params,
      ¬(p.head? = some 47 ∨ p.head? = some 1047 ∨ p.head? = some 1049)) :
    MainFrame g (g.apply_modes params set) := by
  unfold TerminalGrid.apply_modes
  induction params generalizing g with
  | nil => exact mainFrame_refl g
  | cons p rest ih =>
    simp only [List.foldl_cons]
    refine mainFrame_trans ?_ (ih _ (fun q hq => hb q (List.mem_cons_of_mem p hq)))
    have hp := hb p (List.mem_cons_self p rest)
    cases hh : p.head?
    · exact mainFrame_refl g
    · simp only []
      rw [hh] at hp
      refine mainFrame_ite (by simp [MainFrame]) ?_
      rw [if_neg (by simp_all), if_neg (by simp_all)]
      exact mainFrame_refl g

theorem csi_position_le (params : List (List Nat)) (idx mx : Nat) :
    csi_position params idx mx ≤ mx := by
  simp only [csi_position]
  exact Nat.min_le_right _ _

set_option maxHeartbeats 2000000 in
theorem wf_execute_csi (g : TerminalGrid) (fb : Nat) (params : List (List Nat))
    (priv : Bool) (h : WF g) : WF (g.execute_csi fb params priv) := by
  unfold TerminalGrid.execute_csi
  repeat' first
    | exact h
    | exact wf_next_line g _ h
    | exact wf_prev_line g _ h
    | exact wf_of_eqec h (insert_chars_eqec g _)
    | exact wf_of_eqec h (delete_chars_eqec g _)
    | exact wf_of_eqec h (erase_chars_eqec g _)
    | exact wf_of_eqec h (insert_lines_eqec g _)
    | exact wf_of_eqec h (delete_lines_eqec g _)
    | exact wf_of_eqec h (scroll_up_eqec g _)
    | exact wf_of_eqec h (scroll_down_eqec g _)
    | exact wf_of_eqec h (erase_line_eqec g _)
    | exact wf_erase_display g _ h
    | exact wf_repeat_last g _ h
    | exact wf_set_scroll_region g _ h
    | exact wf_apply_sgr g _ h
    | exact wf_apply_modes g _ _ h
    | (obtain ⟨h1, h2, h3, h4, h5, h6, h7, h8, h9, h10⟩ := h
       have hc1 := csi_position_le params 0 (g.rows - 1)
       have hc2 := csi_position_le params 0 (g.cols - 1)
       have hc3 := csi_position_le params 1 (g.cols - 1)
       simp only [WF]
       omega)
    | apply wf_ite

set_option maxHeartbeats 2000000 in
theorem mainFrame_execute_csi (g : TerminalGrid) (fb : Nat) (params : List (List Nat))
    (priv : Bool) (h : WF g)
    (hmode : priv = true → (fb = 0x68 ∨ fb = 0x6C) →
      ∀ p ∈ params,
        ¬(p.head? = some 47 ∨ p.head? = some 1047 ∨ p.head? = some 1049)) :
    MainFrame g (g.execute_csi fb params priv) := by
  unfold TerminalGrid.execute_csi
  by_cases hfb : fb = 0x68 ∨ fb = 0x6C
  · rw [if_pos hfb]
    by_cases hpriv : priv = true
    · rw [if_pos hpriv]
      repeat' first
        | exact mainFrame_apply_modes g _ _ (hmode hpriv hfb)
        | exact mainFrame_refl g
        | exact mainFrame_next_line g _
        | exact mainFrame_prev_line g _
        | exact eqec_mainFrame (insert_chars_eqec g _)
        | exact eqec_mainFrame (delete_chars_eqec g _)
        | exact eqec_mainFrame (erase_chars_eqec g _)
        | exact eqec_mainFrame (insert_lines_eqec g _)
        | exact eqec_mainFrame (delete_lines_eqec g _)
        | exact eqec_mainFrame (scroll_up_eqec g _)
        | exact eqec_mainFrame (scroll_down_eqec g _)
        | exact eqec_mainFrame (erase_line_eqec g _)
        | exact mainFrame_erase_display g _
        | exact mainFrame_repeat_last g _ h
        | exact mainFrame_set_scroll_region g _
        | exact mainFrame_apply_sgr g _
        | (simp only [MainFrame]; refine ⟨?_, ?_, ?_, ?_, ?_, ?_, ?_, ?_, ?_, ?_, ?_, ?_⟩ <;> rfl)
        | apply mainFrame_ite
    · rw [if_neg hpriv]
      repeat' first
        | exact mainFrame_refl g
        | exact mainFrame_next_line g _
        | exact mainFrame_prev_line g _
        | exact eqec_mainFrame (insert_chars_eqec g _)
        | exact eqec_mainFrame (delete_chars_eqec g _)
        | exact eqec_mainFrame (erase_chars_eqec g _)
        | exact eqec_mainFrame (insert_lines_eqec g _)
        | exact eqec_mainFrame (delete_lines_eqec g _)
        | exact eqec_mainFrame (scroll_up_eqec g _)
        | exact eqec_mainFrame (scroll_down_eqec g _)
        | exact eqec_mainFrame (erase_line_eqec g _)
        | exact mainFrame_erase_display g _
        | exact mainFrame_repeat_last g _ h
        | exact mainFrame_set_scroll_region g _
        | exact mainFrame_apply_sgr g _
        | (simp only [MainFrame]; refine ⟨?_, ?_, ?_, ?_, ?_, ?_, ?_, ?_, ?_, ?_, ?_, ?_⟩ <;> rfl)
        | apply mainFrame_ite
  · rw [if_neg hfb]
    repeat' first
      | exact mainFrame_refl g
      | exact mainFrame_next_line g _
      | exact mainFrame_prev_line g _
      | exact eqec_mainFrame (insert_chars_eqec g _)
      | exact eqec_mainFrame (delete_chars_eqec g _)
      | exact eqec_mainFrame (erase_chars_eqec g _)
      | exact eqec_mainFrame (insert_lines_eqec g _)
      | exact eqec_mainFrame (delete_lines_eqec g _)
      | exact eqec_mainFrame (scroll_up_eqec g _)
      | exact eqec_mainFrame (scroll_down_eqec g _)
      | exact eqec_mainFrame (erase_line_eqec g _)
      | exact mainFrame_erase_display g _
      | exact mainFrame_repeat_last g _ h
      | exact mainFrame_set_scroll_region g _
      | exact mainFrame_apply_sgr g _
      | (simp only [MainFrame]; refine ⟨?_, ?_, ?_, ?_, ?_, ?_, ?_, ?_, ?_, ?_, ?_, ?_⟩ <;> rfl)
      | apply mainFrame_ite

theorem wf_esc_dispatch (g : TerminalGrid) (ints : List Nat) (b : Nat) (h : WF g) :
    WF (g.esc_dispatch ints b) := by
  unfold TerminalGrid.esc_dispatch
  rcases ints with _ | ⟨i, _ | ⟨j, rest⟩⟩
  · refine wf_ite (wf_newline g h) (wf_ite ?_ (wf_ite
      (wf_carriage_return _ (wf_newline g h)) (wf_ite (wf_reset g h)
        (wf_ite (by simpa [WF] using h) (wf_ite ?_ h)))))
    · refine wf_ite (wf_of_eqec h (scroll_down_eqec g _)) ?_
      simp only [WF] at h ⊢
      omega
    · simp only [WF] at h ⊢
      omega
  · exact wf_ite (wf_select_charset g _ _ h) h
  · exact h

theorem mainFrame_esc_dispatch (g : TerminalGrid) (ints : List Nat) (b : Nat)
    (h : WF g) (hb : ¬(ints = [] ∧ b = 0x63)) :
    MainFrame g (g.esc_dispatch ints b) := by
  unfold TerminalGrid.esc_dispatch
  rcases ints with _ | ⟨i, _ | ⟨j, rest⟩⟩
  · have hb63 : ¬b = 0x63 := fun hc => hb ⟨rfl, hc⟩
    refine mainFrame_ite (mainFrame_newline g h) (mainFrame_ite ?_ ?_)
    · exact mainFrame_ite (eqec_mainFrame (scroll_down_eqec g _)) (by simp [MainFrame])
    · refine mainFrame_ite
        (mainFrame_trans (mainFrame_newline g h) (mainFrame_carriage_return _)) ?_
      rw [if_neg hb63]
      exact mainFrame_ite (by simp [MainFrame])
        (mainFrame_ite (by simp [MainFrame]) (mainFrame_refl g))
  · exact mainFrame_ite (mainFrame_select_charset g _ _) (mainFrame_refl g)
  · exact mainFrame_refl g

theorem wf_step (g : TerminalGrid) (a : Action) (h : WF g) : WF (g.step a) := by
  cases a with
  | print c => exact wf_put_char g _ h
  | execute b => exact wf_execute g b h
  | csi params ints ign c =>
    simp only [TerminalGrid.step]
    exact wf_ite h (wf_execute_csi g _ params _ h)
  | esc ints ign b => exact wf_esc_dispatch g ints b h
  | osc params bell => exact wf_of_osc h (osc_dispatch_shape g params)
  | hook params ints ign c => exact h
  | put b => exact h
  | unhook => exact h

theorem mainFrame_step (g : TerminalGrid) (a : Action) (h : WF g)
    (hb : a.benign = true) : MainFrame g (g.step a) := by
  cases a with
  | print c => exact mainFrame_put_char g _ h
  | execute b => exact mainFrame_execute g b h
  | csi params ints ign c =>
    simp only [TerminalGrid.step]
    by_cases hig : ign = true
    · rw [if_pos hig]
      exact mainFrame_refl g
    · rw [if_neg hig]
      refine mainFrame_execute_csi g _ params _ h ?_
      intro hpriv hhl p hp
      simp only [Action.benign, hig, Bool.false_or, Bool.or_eq_true,
        Bool.not_eq_eq_eq_not, Bool.not_true, decide_eq_false_iff_not,
        List.all_eq_true] at hb
      rcases hb with (hb | hb) | hb
      · exact absurd (of_decide_eq_true hpriv) hb
      · exact absurd hhl hb
      · have := hb p hp
        simpa using this
  | esc ints ign b =>
    refine mainFrame_esc_dispatch g ints b h ?_
    intro hc
    simp only [Action.benign] at hb
    rw [hc.1, hc.2] at hb
    simp at hb
  | osc params bell => exact mainFrame_of_osc (osc_dispatch_shape g params)
  | hook params ints ign c => exact mainFrame_refl g
  | put b => exact mainFrame_refl g
  | unhook => exact mainFrame_refl g

theorem wf_run (g : TerminalGrid) (acts : List Action) (h : WF g) :
    WF (g.run acts) := by
  unfold TerminalGrid.run
  induction acts generalizing g with
  | nil => exact h
  | cons a rest ih =>
    simp only [List.foldl_cons]
    exact ih _ (wf_step g a h)

theorem mainFrame_run (g : TerminalGrid) (acts : List Action) (h : WF g)
    (hb : ∀ a ∈ acts, a.benign = true) : MainFrame g (g.run acts) := by
  unfold TerminalGrid.run
  induction acts generalizing g with
  | nil => exact mainFrame_refl g
  | cons a rest ih =>
    simp only [List.foldl_cons]
    refine mainFrame_trans (mainFrame_step g a h (hb a (List.mem_cons_self a rest))) ?_
    exact ih _ (wf_step g a h) (fun a' ha' => hb a' (List.mem_cons_of_mem a ha'))

theorem wf_new (cols rows : Nat) : WF (TerminalGrid.new cols rows) := by
  simp only [TerminalGrid.new, WF]
  omega

theorem step_decset_1049 (g : TerminalGrid) :
    g.step (Action.csi [[1049]] [0x3F] false 'h') = g.enter_alternate true true := by
  simp [TerminalGrid.step, TerminalGrid.execute_csi, TerminalGrid.apply_modes]

theorem step_decrst_1049 (g : TerminalGrid) :
    g.step (Action.csi [[1049]] [0x3F] false 'l') = g.exit_alternate true := by
  simp [TerminalGrid.step, TerminalGrid.execute_csi, TerminalGrid.apply_modes]

theorem enter_1049_fields (g : TerminalGrid) (halt : g.in_alt = false) :
    (g.enter_alternate true true).alt_cells = g.cells ∧
    (g.enter_alternate true true).saved_cursor_1049 = some (g.cursor_row, g.cursor_col) ∧
    (g.enter_alternate true true).in_alt = true ∧
    (g.enter_alternate true true).rows = g.rows ∧
    (g.enter_alternate true true).cols = g.cols := by
  simp only [TerminalGrid.enter_alternate, TerminalGrid.ensure_alt_buffer,
    TerminalGrid.swap_screens, TerminalGrid.clear, halt]
  simp only [Bool.false_eq_true, if_false, if_true]
  split <;> simp

theorem enter_1049_len (g : TerminalGrid) (halt : g.in_alt = false) :
    (g.enter_alternate true true).alt_cells_len = g.cells_len := by
  simp only [TerminalGrid.enter_alternate, TerminalGrid.ensure_alt_buffer,
    TerminalGrid.swap_screens, TerminalGrid.clear, halt]
  simp only [Bool.false_eq_true, if_false, if_true]
  split <;> simp

theorem exit_restore_fields (g : TerminalGrid) (r0 c0 : Nat)
    (hin : g.in_alt = true) (hs : g.saved_cursor_1049 = some (r0, c0)) :
    (g.exit_alternate true).cells = g.alt_cells ∧
    (g.exit_alternate true).cursor_row = min r0 (g.rows - 1) ∧
    (g.exit_alternate true).cursor_col = min c0 (g.cols - 1) ∧
    (g.exit_alternate true).rows = g.rows ∧
    (g.exit_alternate true).cols = g.cols ∧
    (g.exit_alternate true).cells_len = g.alt_cells_len := by
  simp [TerminalGrid.exit_alternate, TerminalGrid.swap_screens, hin, hs]

/-- C7: starting outside the alternate screen, DECSET 1049 followed by any
benign action sequence (no mode-47/1047/1049 changes, no RIS) followed by
DECRST 1049 restores the primary cell buffer, its length, the dimensions
and the cursor position to their pre-entry values. -/
theorem C7_alt_1049_roundtrip (g : TerminalGrid) (acts : List Action)
    (hwf : WF g) (halt : g.in_alt = false)
    (hb : ∀ a ∈ acts, a.benign = true) :
    (((g.step (Action.csi [[1049]] [0x3F] false 'h')).run acts).step
        (Action.csi [[1049]] [0x3F] false 'l')).cells = g.cells ∧
    (((g.step (Action.csi [[1049]] [0x3F] false 'h')).run acts).step
        (Action.csi [[1049]] [0x3F] false 'l')).cells_len = g.cells_len ∧
    (((g.step (Action.csi [[1049]] [0x3F] false 'h')).run acts).step
        (Action.csi [[1049]] [0x3F] false 'l')).cursor_row = g.cursor_row ∧
    (((g.step (Action.csi [[1049]] [0x3F] false 'h')).run acts).step
        (Action.csi [[1049]] [0x3F] false 'l')).cursor_col = g.cursor_col ∧
    (((g.step (Action.csi [[1049]] [0x3F] false 'h')).run acts).step
        (Action.csi [[1049]] [0x3F] false 'l')).rows = g.rows ∧
    (((g.step (Action.csi [[1049]] [0x3F] false 'h')).run acts).step
        (Action.csi [[1049]] [0x3F] false 'l')).cols = g.cols := by
  rw [step_decset_1049, step_decrst_1049]
  obtain ⟨hEalt, hEsaved, hEin, hErows, hEcols⟩ := enter_1049_fields g halt
  have hEaltlen : (g.enter_alternate true true).alt_cells_len = g.cells_len :=
    enter_1049_len g halt
  have hwfE : WF (g.enter_alternate true true) := wf_enter_alternate g true true hwf
  obtain ⟨m_rows, m_cols, m_clen, m_alt, m_altlen, m_acr, m_acc, m_asc, m_ast,
    m_asb, m_in, m_saved⟩ :=
    mainFrame_run (g.enter_alternate true true) acts hwfE hb
  have hin : ((g.enter_alternate true true).run acts).in_alt = true := by
    rw [m_in, hEin]
  have hsv : ((g.enter_alternate true true).run acts).saved_cursor_1049 =
      some (g.cursor_row, g.cursor_col) := by rw [m_saved, hEsaved]
  obtain ⟨e_cells, e_row, e_col, e_rows, e_cols, e_len⟩ :=
    exit_restore_fields ((g.enter_alternate true true).run acts)
      g.cursor_row g.cursor_col hin hsv
  have hmrows : ((g.enter_alternate true true).run acts).rows = g.rows := by
    rw [m_rows, hErows]
  have hmcols : ((g.enter_alternate true true).run acts).cols = g.cols := by
    rw [m_cols, hEcols]
  refine ⟨?_, ?_, ?_, ?_, ?_, ?_⟩
  · rw [e_cells, m_alt, hEalt]
  · rw [e_len, m_altlen, hEaltlen]
  · rw [e_row, hmrows]
    have := hwf.2.2.1
    omega
  · rw [e_col, hmcols]
    have := hwf.2.2.2.1
    omega
  · rw [e_rows, hmrows]
  · rw [e_cols, hmcols]

/-- Witness for C7 on a concrete grid with a print action between entry
and exit. -/
theorem C7_alt_1049_roundtrip_witness :
    ((((TerminalGrid.new 2 2).step (Action.csi [[1049]] [0x3F] false 'h')).run
          [Action.print 'a']).step (Action.csi [[1049]] [0x3F] false 'l')).cursor_row =
      (TerminalGrid.new 2 2).cursor_row :=
  (C7_alt_1049_roundtrip (TerminalGrid.new 2 2) [Action.print 'a']
    (by decide) (by decide) (by decide)).2.2.1

/-- C8: after an engine built with positive dimensions processes any
sequence of parser callbacks (covering every input byte sequence fed
through `write_bytes`), the cursor row stays below the row count and the
cursor column stays at most the column count. -/
theorem C8_cursor_in_bounds (cols rows : Nat) (acts : List Action)
    (_hc : 1 ≤ cols) (_hr : 1 ≤ rows) :
    ((TerminalGrid.new cols rows).run acts).cursor_row <
      ((TerminalGrid.new cols rows).run acts).rows ∧
    ((TerminalGrid.new cols rows).run acts).cursor_col ≤
      ((TerminalGrid.new cols rows).run acts).cols := by
  have h := wf_run (TerminalGrid.new cols rows) acts (wf_new cols rows)
  exact ⟨h.2.2.1, Nat.le_of_lt h.2.2.2.1⟩

/-- Witness for C8 at a concrete engine and byte-stream action list. -/
theorem C8_cursor_in_bounds_witness :
    ((TerminalGrid.new 2 3).run [Action.print 'a', Action.execute 0x0a]).cursor_row <
      ((TerminalGrid.new 2 3).run [Action.print 'a', Action.execute 0x0a]).rows ∧
    ((TerminalGrid.new 2 3).run [Action.print 'a', Action.execute 0x0a]).cursor_col ≤
      ((TerminalGrid.new 2 3).run [Action.print 'a', Action.execute 0x0a]).cols :=
  C8_cursor_in_bounds 2 3 [Action.print 'a', Action.execute 0x0a]
    (by decide) (by decide)

theorem apply_sgr_one (g : TerminalGrid) : g.apply_sgr [[1]] = g := by
  simp [TerminalGrid.apply_sgr, TerminalGrid.sgr_loop, TerminalGrid.sgr_step]

theorem apply_sgr_22 (g : TerminalGrid) : g.apply_sgr [[22]] = g := by
  simp [TerminalGrid.apply_sgr, TerminalGrid.sgr_loop, TerminalGrid.sgr_step]

theorem apply_sgr_30s (g : TerminalGrid) (m : Nat) (h1 : 30 ≤ m) (h2 : m ≤ 37) :
    g.apply_sgr [[m]] = { g with cur_fg_kind := ColorKind.Ansi (m - 30) } := by
  interval_cases m <;>
    simp [TerminalGrid.apply_sgr, TerminalGrid.sgr_loop, TerminalGrid.sgr_step]

/-- C1 is refuted by `C1_sgr_bold_counterexample`: `apply_sgr` deliberately
ignores SGR 1 and SGR 22, so neither brightens nor restores the foreground.
Amended: SGR 1 and SGR 22 leave the whole grid state unchanged, and after
SGR 3N the effective foreground is palette index N (not N+8) whether or not
SGR 1 or SGR 22 follows, provided the bold and inverse flags are clear. -/
theorem C1_sgr_bold_ignored (g : TerminalGrid) (n : Nat) (hn : n < 8)
    (hb : g.cur_bold = false) (hi : g.cur_inverse = false) :
    g.apply_sgr [[1]] = g ∧ g.apply_sgr [[22]] = g ∧
    (g.apply_sgr [[30 + n]]).effective_color_kinds.1 = ColorKind.Ansi n ∧
    ((g.apply_sgr [[30 + n]]).apply_sgr [[1]]).effective_color_kinds.1 =
      ColorKind.Ansi n ∧
    ((g.apply_sgr [[30 + n]]).apply_sgr [[22]]).effective_color_kinds.1 =
      ColorKind.Ansi n := by
  have h30 : g.apply_sgr [[30 + n]] = { g with cur_fg_kind := ColorKind.Ansi n } := by
    have := apply_sgr_30s g (30 + n) (by omega) (by omega)
    simpa [Nat.add_sub_cancel_left] using this
  have heff : ({ g with cur_fg_kind := ColorKind.Ansi n } :
      TerminalGrid).effective_color_kinds.1 = ColorKind.Ansi n := by
    simp [TerminalGrid.effective_color_kinds, hb, hi]
  refine ⟨apply_sgr_one g, apply_sgr_22 g, ?_, ?_, ?_⟩
  · rw [h30, heff]
  · rw [h30, apply_sgr_one, heff]
  · rw [h30, apply_sgr_22, heff]

/-- Witness for the amended C1 at a fresh grid and N = 1. -/
theorem C1_sgr_bold_ignored_witness :
    (TerminalGrid.new 2 2).apply_sgr [[1]] = TerminalGrid.new 2 2 ∧
    (TerminalGrid.new 2 2).apply_sgr [[22]] = TerminalGrid.new 2 2 ∧
    ((TerminalGrid.new 2 2).apply_sgr [[30 + 1]]).effective_color_kinds.1 =
      ColorKind.Ansi 1 ∧
    (((TerminalGrid.new 2 2).apply_sgr [[30 + 1]]).apply_sgr
        [[1]]).effective_color_kinds.1 = ColorKind.Ansi 1 ∧
    (((TerminalGrid.new 2 2).apply_sgr [[30 + 1]]).apply_sgr
        [[22]]).effective_color_kinds.1 = ColorKind.Ansi 1 :=
  C1_sgr_bold_ignored (TerminalGrid.new 2 2) 1 (by decide) (by decide) (by decide)

/-- Counterexample to C1 as written: after SGR 31, SGR 1 leaves the
effective foreground at palette index 1 rather than moving it to 9, and a
following SGR 22 has nothing to restore. -/
theorem C1_sgr_bold_counterexample :
    (((TerminalGrid.new 2 2).apply_sgr [[31]]).apply_sgr
        [[1]]).effective_color_kinds.1 ≠ ColorKind.Ansi 9 := by
  decide

/-- C2 is refuted by `C2_linefeed_counterexample`: `execute` handles 0x0A
but ignores 0x0B and 0x0C entirely.  Amended: 0x0A scrolls the region when
the cursor row is at or below the scroll bottom and otherwise advances the
row, never moving the column, while 0x0B and 0x0C leave the grid
unchanged. -/
theorem C2_linefeed (g : TerminalGrid) :
    (g.cursor_row ≥ g.scroll_bottom → g.execute 0x0a = g.scroll_up 1) ∧
    (g.cursor_row < g.scroll_bottom →
      g.execute 0x0a = { g with cursor_row := g.cursor_row + 1 }) ∧
    (g.execute 0x0a).cursor_col = g.cursor_col ∧
    g.execute 0x0b = g ∧ g.execute 0x0c = g := by
  have he : g.execute 0x0a = g.newline := by
    simp [TerminalGrid.execute]
  refine ⟨?_, ?_, ?_, ?_, ?_⟩
  · intro hge
    rw [he, TerminalGrid.newline, if_pos hge]
  · intro hlt
    rw [he, TerminalGrid.newline, if_neg (by omega)]
  · rw [he, TerminalGrid.newline]
    by_cases hge : g.cursor_row ≥ g.scroll_bottom
    · rw [if_pos hge]
      obtain ⟨cs, e⟩ := scroll_up_eqec g 1
      rw [e]
    · rw [if_neg hge]
  · simp [TerminalGrid.execute]
  · simp [TerminalGrid.execute]

/-- Witness for the amended C2 on a fresh 2-column, 3-row grid. -/
theorem C2_linefeed_witness :
    (TerminalGrid.new 2 3).execute 0x0a =
      { TerminalGrid.new 2 3 with
          cursor_row := (TerminalGrid.new 2 3).cursor_row + 1 } ∧
    ((TerminalGrid.new 2 3).execute 0x0a).cursor_col =
      (TerminalGrid.new 2 3).cursor_col ∧
    (TerminalGrid.new 2 3).execute 0x0b = TerminalGrid.new 2 3 ∧
    (TerminalGrid.new 2 3).execute 0x0c = TerminalGrid.new 2 3 :=
  ⟨(C2_linefeed (TerminalGrid.new 2 3)).2.1 (by decide),
   (C2_linefeed (TerminalGrid.new 2 3)).2.2.1,
   (C2_linefeed (TerminalGrid.new 2 3)).2.2.2.1,
   (C2_linefeed (TerminalGrid.new 2 3)).2.2.2.2⟩

/-- Counterexample to C2 as written: with the cursor row distinct from the
scroll bottom, 0x0B (VT) does not advance the cursor row. -/
theorem C2_linefeed_counterexample :
    (TerminalGrid.new 2 3).cursor_row ≠ (TerminalGrid.new 2 3).scroll_bottom ∧
    ((TerminalGrid.new 2 3).execute 0x0b).cursor_row ≠
      (TerminalGrid.new 2 3).cursor_row + 1 := by
  decide

/-- C10: the cell interface is total at the boundary: out-of-bounds reads
return the default blank cell (space, default colors, no underline, not a
continuation) and out-of-bounds writes are ignored, so no access indexes
outside the buffer. -/
theorem C10_cell_boundary (g : TerminalGrid) (row col : Nat) (ch : Char)
    (fg bg : ColorKind) (u ct : Bool) (h : g.rows ≤ row ∨ g.cols ≤ col) :
    g.cell_at row col = Cell.default ∧
    g.set_cell row col ch fg bg u ct = g ∧
    Cell.default =
      { ch := ' ', fg_kind := ColorKind.Default, bg_kind := ColorKind.Default,
        underline := false, cont := false } := by
  refine ⟨?_, ?_, rfl⟩
  · simp only [TerminalGrid.cell_at]
    rw [if_neg (by omega)]
  · simp only [TerminalGrid.set_cell]
    rw [if_neg (by omega)]

/-- Witness for C10 at a concrete out-of-bounds coordinate. -/
theorem C10_cell_boundary_witness :
    (TerminalGrid.new 2 2).cell_at 5 0 = Cell.default ∧
    (TerminalGrid.new 2 2).set_cell 5 0 'x' ColorKind.Default ColorKind.Default
        false false = TerminalGrid.new 2 2 ∧
    Cell.default =
      { ch := ' ', fg_kind := ColorKind.Default, bg_kind := ColorKind.Default,
        underline := false, cont := false } :=
  C10_cell_boundary (TerminalGrid.new 2 2) 5 0 'x' ColorKind.Default
    ColorKind.Default false false (by decide)

theorem newline_cursor_col (x : TerminalGrid) : x.newline.cursor_col = x.cursor_col := by
  unfold TerminalGrid.newline
  split
  · obtain ⟨cs, e⟩ := scroll_up_eqec x 1
    rw [e]
  · rfl

/-- C3 is refuted by `C3_pending_wrap_counterexample`: there is no
pending-wrap column.  Amended: printing a width-1 character in the last
column writes the glyph and wraps immediately inside `put_char` — the
cursor column becomes 0 and the line feed (scrolling if needed) is applied
at once, rather than the column resting at `cols` until the next
printable. -/
theorem C3_last_column_wrap (g : TerminalGrid) (ch : Char) (h : WF g)
    (hw : charWidth ch = 1) (hcol : g.cursor_col = g.cols - 1) :
    g.put_char ch =
      ({ (g.clear_wide_at g.cursor_row g.cursor_col).set_cell g.cursor_row
          g.cursor_col ch g.attr_fg g.attr_bg g.cur_underline false with
         cursor_col := 0
         last_printable := some ch }).newline ∧
    (g.put_char ch).cursor_col = 0 := by
  have h1 := h.1
  have h3 := h.2.2.1
  have h4 := h.2.2.2.1
  have main : g.put_char ch =
      ({ (g.clear_wide_at g.cursor_row g.cursor_col).set_cell g.cursor_row
          g.cursor_col ch g.attr_fg g.attr_bg g.cur_underline false with
         cursor_col := 0
         last_printable := some ch }).newline := by
    simp only [TerminalGrid.put_char]
    rw [if_neg (by omega), hw, if_neg (by omega), if_neg (by omega)]
    simp only [TerminalGrid.put_char_narrow, TerminalGrid.put_tail]
    obtain ⟨cs1, e1⟩ := clear_wide_at_eqec g g.cursor_row g.cursor_col
    rw [e1]
    simp only []
    obtain ⟨cs2, e2⟩ := set_cell_eqec { g with cells := cs1 } g.cursor_row
      g.cursor_col ch g.attr_fg g.attr_bg g.cur_underline false
    rw [e2]
    simp only []
    rw [if_pos (by omega)]
  exact ⟨main, by rw [main, newline_cursor_col]⟩

/-- Witness for the amended C3: after `a` fills the last column of a
2-column grid, printing `b` lands the cursor at column 0 of the next row. -/
theorem C3_last_column_wrap_witness :
    ((TerminalGrid.new 2 2).put_char 'a').put_char 'b' =
      ({ (((TerminalGrid.new 2 2).put_char 'a').clear_wide_at
            ((TerminalGrid.new 2 2).put_char 'a').cursor_row
            ((TerminalGrid.new 2 2).put_char 'a').cursor_col).set_cell
          ((TerminalGrid.new 2 2).put_char 'a').cursor_row
          ((TerminalGrid.new 2 2).put_char 'a').cursor_col 'b'
          ((TerminalGrid.new 2 2).put_char 'a').attr_fg
          ((TerminalGrid.new 2 2).put_char 'a').attr_bg
          ((TerminalGrid.new 2 2).put_char 'a').cur_underline false with
         cursor_col := 0
         last_printable := some 'b' }).newline ∧
    (((TerminalGrid.new 2 2).put_char 'a').put_char 'b').cursor_col = 0 :=
  C3_last_column_wrap ((TerminalGrid.new 2 2).put_char 'a') 'b'
    (by decide) (by decide) (by decide)

/-- Counterexample to C3 as written: after filling the last column of the
first row, the cursor column is not `cols` and the row has already
advanced. -/
theorem C3_pending_wrap_counterexample :
    (((TerminalGrid.new 2 2).put_char 'a').put_char 'b').cursor_col ≠
      (TerminalGrid.new 2 2).cols ∧
    (((TerminalGrid.new 2 2).put_char 'a').put_char 'b').cursor_row ≠
      ((TerminalGrid.new 2 2).put_char 'a').cursor_row := by
  decide

theorem fillSpan_zero (s : Nat) (c : Cell) (cells : Nat → Cell) :
    fillSpan s 0 c cells = cells := by
  funext j
  simp only [fillSpan]
  rw [if_neg (by omega)]

theorem fillSpan_succ (s L : Nat) (c : Cell) (cells : Nat → Cell) :
    fillSpan (s + 1) L c (updIdx cells s c) = fillSpan s (L + 1) c cells := by
  funext j
  simp only [fillSpan, updIdx]
  by_cases h1 : s + 1 ≤ j ∧ j < s + 1 + L
  · rw [if_pos h1, if_pos (by omega)]
  · rw [if_neg h1]
    by_cases h2 : j = s
    · rw [if_pos h2, if_pos (by omega)]
    · rw [if_neg h2, if_neg (by omega)]

theorem tabWrite_spec (fuel : Nat) :
    ∀ (g : TerminalGrid) (next : Nat) (fg bg : ColorKind) (u : Bool),
      g.cursor_row < g.rows →
      min next g.cols ≤ g.cursor_col + fuel →
      TerminalGrid.tabWrite fuel g next fg bg u =
        { g with
          cells := fillSpan (g.cursor_row * g.cols + g.cursor_col)
            (min next g.cols - g.cursor_col)
            { ch := ' ', fg_kind := fg, bg_kind := bg, underline := u, cont := false }
            g.cells
          cursor_col := max g.cursor_col (min next g.cols) } := by
  induction fuel with
  | zero =>
    intro g next fg bg u hr hf
    have hstop : min next g.cols ≤ g.cursor_col := by omega
    rw [show min next g.cols - g.cursor_col = 0 from by omega, fillSpan_zero,
      Nat.max_eq_left hstop]
    rfl
  | succ fuel ih =>
    intro g next fg bg u hr hf
    unfold TerminalGrid.tabWrite
    by_cases hc : g.cursor_col < g.cols ∧ g.cursor_col < next
    · rw [if_pos hc]
      have hset : g.set_cell g.cursor_row g.cursor_col ' ' fg bg u false =
          { g with
            cells := updIdx g.cells (g.cursor_row * g.cols + g.cursor_col)
              { ch := ' ', fg_kind := fg, bg_kind := bg, underline := u,
                cont := false } } := by
        simp only [TerminalGrid.set_cell, TerminalGrid.cell_index]
        rw [if_pos ⟨hr, hc.1⟩]
      rw [hset]
      rw [ih _ next fg bg u (by simpa using hr) (by simp only []; omega)]
      simp only []
      have hlt : g.cursor_col < min next g.cols := by omega
      rw [show g.cursor_row * g.cols + (g.cursor_col + 1) =
        g.cursor_row * g.cols + g.cursor_col + 1 from by omega]
      rw [fillSpan_succ]
      rw [show min next g.cols - (g.cursor_col + 1) + 1 =
        min next g.cols - g.cursor_col from by omega]
      rw [show max (g.cursor_col + 1) (min next g.cols) =
        max g.cursor_col (min next g.cols) from by omega]
    · rw [if_neg hc]
      have hstop : min next g.cols ≤ g.cursor_col := by omega
      rw [show min next g.cols - g.cursor_col = 0 from by omega, fillSpan_zero,
        Nat.max_eq_left hstop]

/-- C4 is refuted by `C4_tab_counterexample`: HT writes blank cells over
the columns it crosses and, when the next tab stop lies at or past the
right margin, wraps to column 0 of the next line instead of clamping to
`cols-1`.  Amended: HT blanks the cells from the cursor up to the stop
with the current attributes; it then either lands on `((col/8)+1)*8` when
that is inside the line, or wraps via a line feed. -/
theorem C4_tab (g : TerminalGrid) (h : WF g) :
    ((g.cursor_col / TAB_SIZE + 1) * TAB_SIZE < g.cols →
      g.execute 0x09 =
        { g with
          cells := fillSpan (g.cursor_row * g.cols + g.cursor_col)
            ((g.cursor_col / TAB_SIZE + 1) * TAB_SIZE - g.cursor_col)
            { ch := ' ', fg_kind := g.attr_fg, bg_kind := g.attr_bg,
              underline := g.cur_underline, cont := false } g.cells
          cursor_col := (g.cursor_col / TAB_SIZE + 1) * TAB_SIZE }) ∧
    (g.cols ≤ (g.cursor_col / TAB_SIZE + 1) * TAB_SIZE →
      g.execute 0x09 =
        ({ g with
          cells := fillSpan (g.cursor_row * g.cols + g.cursor_col)
            (g.cols - g.cursor_col)
            { ch := ' ', fg_kind := g.attr_fg, bg_kind := g.attr_bg,
              underline := g.cur_underline, cont := false } g.cells
          cursor_col := 0 }).newline) := by
  have h3 := h.2.2.1
  have h4 := h.2.2.2.1
  have he : g.execute 0x09 = g.tab := by
    simp [TerminalGrid.execute]
  rw [he]
  simp only [TerminalGrid.tab]
  rw [tabWrite_spec (g.cols - g.cursor_col) g _ g.attr_fg g.attr_bg
    g.cur_underline h3 (by omega)]
  simp only []
  constructor
  · intro hin
    rw [show min ((g.cursor_col / TAB_SIZE + 1) * TAB_SIZE) g.cols =
      (g.cursor_col / TAB_SIZE + 1) * TAB_SIZE from by omega]
    have hnext : g.cursor_col < (g.cursor_col / TAB_SIZE + 1) * TAB_SIZE := by
      simp only [TAB_SIZE]
      omega
    rw [show max g.cursor_col ((g.cursor_col / TAB_SIZE + 1) * TAB_SIZE) =
      (g.cursor_col / TAB_SIZE + 1) * TAB_SIZE from by omega]
    rw [if_neg (by omega)]
  · intro hout
    rw [show min ((g.cursor_col / TAB_SIZE + 1) * TAB_SIZE) g.cols = g.cols from by
      omega]
    rw [show max g.cursor_col g.cols = g.cols from by omega]
    rw [if_pos (by omega)]

/-- Witness for the amended C4 on a 12-column grid: the tab stop 8 is
inside the line, so the cursor lands there over freshly blanked cells. -/
theorem C4_tab_witness :
    (TerminalGrid.new 12 2).execute 0x09 =
      { TerminalGrid.new 12 2 with
        cells := fillSpan ((TerminalGrid.new 12 2).cursor_row *
            (TerminalGrid.new 12 2).cols + (TerminalGrid.new 12 2).cursor_col)
          (((TerminalGrid.new 12 2).cursor_col / TAB_SIZE + 1) * TAB_SIZE -
            (TerminalGrid.new 12 2).cursor_col)
          { ch := ' ', fg_kind := (TerminalGrid.new 12 2).attr_fg,
            bg_kind := (TerminalGrid.new 12 2).attr_bg,
            underline := (TerminalGrid.new 12 2).cur_underline, cont := false }
          (TerminalGrid.new 12 2).cells
        cursor_col := ((TerminalGrid.new 12 2).cursor_col / TAB_SIZE + 1) *
          TAB_SIZE } :=
  (C4_tab (TerminalGrid.new 12 2) (by decide)).1 (by decide)

/-- Counterexample to C4 as written: in a 2-column grid HT wraps to the
next row instead of clamping to column 1, and in a 4-column grid it blanks
a cell holding `a`. -/
theorem C4_tab_counterexample :
    ((TerminalGrid.new 2 2).execute 0x09).cursor_row ≠
      (TerminalGrid.new 2 2).cursor_row ∧
    ((((TerminalGrid.new 4 2).put_char 'a').carriage_return).execute
        0x09).cell_at 0 0 ≠
      (((TerminalGrid.new 4 2).put_char 'a').carriage_return).cell_at 0 0 := by
  decide

theorem shift_fold (cols : Nat) :
    ∀ (n s : Nat) (cells : Nat → Cell), 1 ≤ s →
      (List.range' s n).foldl
        (fun cs row => copySpan (row * cols) ((row - 1) * cols) cols cs) cells =
      fun j =>
        if (s - 1) * cols ≤ j ∧ j < (s - 1 + n) * cols then cells (j + cols)
        else cells j := by
  intro n
  induction n with
  | zero =>
    intro s cells hs
    funext j
    simp only [List.range'_zero, List.foldl_nil, Nat.add_zero]
    rw [if_neg (by omega)]
  | succ n ih =>
    intro s cells hs
    rw [List.range'_succ, List.foldl_cons]
    rw [ih (s + 1) _ (by omega)]
    funext j
    simp only [Nat.add_sub_cancel]
    rw [show s - 1 + (n + 1) = s + n from by omega]
    have e1 : (s - 1) * cols + cols = s * cols := by
      have h1 : s - 1 + 1 = s := by omega
      calc (s - 1) * cols + cols = (s - 1 + 1) * cols := by rw [Nat.succ_mul]
        _ = s * cols := by rw [h1]
    have e2 : s * cols ≤ (s + n) * cols := Nat.mul_le_mul_right cols (by omega)
    simp only [copySpan]
    split_ifs <;> first
      | rfl
      | exact congrArg cells (by omega)

/-- C5 is refuted by `C5_scroll_counterexample`: `scroll_up` returns early
whenever the clamped top is not strictly below the clamped bottom, so a
one-row region is never cleared.  Amended: when the region is degenerate
(bottom at or above top) a single scroll-up is a no-op; when top is
strictly below bottom it copies each row `r` of `top+1..bottom` into
`r-1` and clears row `bottom` to blank cells with the current
attributes. -/
theorem C5_scroll_region (g : TerminalGrid) (r c : Nat) (h : WF g) :
    (g.scroll_bottom ≤ g.scroll_top → g.scroll_up 1 = g) ∧
    (g.scroll_top < g.scroll_bottom →
      g.scroll_top + 1 ≤ r → r ≤ g.scroll_bottom → c < g.cols →
      (g.scroll_up 1).cell_at (r - 1) c = g.cell_at r c ∧
      (g.scroll_up 1).cell_at g.scroll_bottom c = g.blank_cell) := by
  have h5 := h.2.2.2.2.1
  have h6 := h.2.2.2.2.2.1
  constructor
  · intro hba
    simp only [TerminalGrid.scroll_up]
    rw [if_pos (by omega)]
  · intro hlt hr1 hr2 hc
    have key : g.scroll_up 1 =
        { g with
          cells := fillSpan (g.scroll_bottom * g.cols) g.cols g.blank_cell
            (fun j =>
              if g.scroll_top * g.cols ≤ j ∧ j < g.scroll_bottom * g.cols then
                g.cells (j + g.cols)
              else g.cells j) } := by
      simp only [TerminalGrid.scroll_up]
      rw [if_neg (by omega)]
      rw [show List.range 1 = [0] from by decide]
      simp only [List.foldl_cons, List.foldl_nil]
      rw [show min g.scroll_top (g.rows - 1) = g.scroll_top from by omega,
        show min g.scroll_bottom (g.rows - 1) = g.scroll_bottom from by omega]
      rw [shift_fold g.cols (g.scroll_bottom - g.scroll_top) (g.scroll_top + 1)
        g.cells (by omega)]
      simp only [Nat.add_sub_cancel,
        show g.scroll_top + (g.scroll_bottom - g.scroll_top) = g.scroll_bottom
          from by omega]
    rw [key]
    have hr0 : 1 ≤ r := by omega
    have m1 : (r - 1) * g.cols + g.cols = r * g.cols := by
      calc (r - 1) * g.cols + g.cols = (r - 1 + 1) * g.cols := by rw [Nat.succ_mul]
        _ = r * g.cols := by rw [show r - 1 + 1 = r from by omega]
    have m2 : r * g.cols ≤ g.scroll_bottom * g.cols :=
      Nat.mul_le_mul_right g.cols hr2
    have m3 : g.scroll_top * g.cols ≤ (r - 1) * g.cols :=
      Nat.mul_le_mul_right g.cols (by omega)
    constructor
    · simp only [TerminalGrid.cell_at, TerminalGrid.cell_index]
      rw [if_pos ⟨by omega, hc⟩, if_pos ⟨by omega, hc⟩]
      simp only [fillSpan]
      rw [if_neg (by omega), if_pos ⟨by omega, by omega⟩]
      exact congrArg g.cells (by omega)
    · simp only [TerminalGrid.cell_at, TerminalGrid.cell_index]
      rw [if_pos ⟨by omega, hc⟩]
      simp only [fillSpan]
      rw [if_pos ⟨by omega, by omega⟩]

/-- Witness for the amended C5 on a fresh 3-row grid: row 1 moves up into
row 0 and the bottom row is blanked. -/
theorem C5_scroll_region_witness :
    ((TerminalGrid.new 2 3).scroll_up 1).cell_at (1 - 1) 0 =
      (TerminalGrid.new 2 3).cell_at 1 0 ∧
    ((TerminalGrid.new 2 3).scroll_up 1).cell_at
        (TerminalGrid.new 2 3).scroll_bottom 0 =
      (TerminalGrid.new 2 3).blank_cell :=
  (C5_scroll_region (TerminalGrid.new 2 3) 1 0 (by decide)).2
    (by decide) (by decide) (by decide) (by decide)

/-- Counterexample to C5 as written: in a one-row terminal the scroll
region is a single row, yet a scroll-up leaves its contents in place
instead of clearing them. -/
theorem C5_scroll_counterexample :
    ((TerminalGrid.new 2 1).put_char 'a').scroll_top =
      ((TerminalGrid.new 2 1).put_char 'a').scroll_bottom ∧
    (((TerminalGrid.new 2 1).put_char 'a').scroll_up 1).cell_at 0 0 ≠
      ((TerminalGrid.new 2 1).put_char 'a').blank_cell := by
  decide

/-- C6 is refuted by `C6_resize_counterexample`: on a real change, resize
fills the primary buffer with default blank cells — the default background,
not the currently configured one — and re-allocates the alternate buffer
only when it is non-empty.  Amended: dimensions are clamped to at least 1;
an unchanged clamped size is a no-op returning false; otherwise the scroll
regions reset to the full new height, the primary buffer is re-allocated at
the new size filled with default blank cells, the alternate buffer likewise
but only if non-empty, the cursors of both screens are clamped into the new
bounds, and true is returned. -/
theorem C6_resize (g : TerminalGrid) (cols rows : Nat) :
    (max cols 1 = g.cols ∧ max rows 1 = g.rows → g.resize cols rows = (g, false)) ∧
    (¬(max cols 1 = g.cols ∧ max rows 1 = g.rows) →
      (g.resize cols rows).2 = true ∧
      (g.resize cols rows).1.cols = max cols 1 ∧
      (g.resize cols rows).1.rows = max rows 1 ∧
      (g.resize cols rows).1.cells_len = max cols 1 * max rows 1 ∧
      (g.resize cols rows).1.cells = (fun _ => Cell.default) ∧
      (g.resize cols rows).1.cursor_row = min g.cursor_row (max rows 1 - 1) ∧
      (g.resize cols rows).1.cursor_col = min g.cursor_col (max cols 1 - 1) ∧
      (g.resize cols rows).1.scroll_top = 0 ∧
      (g.resize cols rows).1.scroll_bottom = max rows 1 - 1 ∧
      (g.alt_cells_len ≠ 0 →
        (g.resize cols rows).1.alt_cells_len = max cols 1 * max rows 1 ∧
        (g.resize cols rows).1.alt_cells = (fun _ => Cell.default)) ∧
      (g.alt_cells_len = 0 →
        (g.resize cols rows).1.alt_cells_len = 0 ∧
        (g.resize cols rows).1.alt_cells = g.alt_cells) ∧
      (g.resize cols rows).1.alt_cursor_row = min g.alt_cursor_row (max rows 1 - 1) ∧
      (g.resize cols rows).1.alt_cursor_col = min g.alt_cursor_col (max cols 1 - 1) ∧
      (g.resize cols rows).1.alt_scroll_top = 0 ∧
      (g.resize cols rows).1.alt_scroll_bottom = max rows 1 - 1) := by
  constructor
  · intro h
    obtain ⟨h1, h2⟩ := h
    simp [TerminalGrid.resize, h1, h2]
  · intro hne
    by_cases ha : g.alt_cells_len = 0
    · simp [TerminalGrid.resize, hne, ha]
    · simp [TerminalGrid.resize, hne, ha]

/-- Witness for the amended C6: a genuine resize reports true with the new
width, and a resize to the current clamped size is a no-op. -/
theorem C6_resize_witness :
    ((TerminalGrid.new 2 2).resize 3 3).2 = true ∧
    ((TerminalGrid.new 2 2).resize 3 3).1.cols = max 3 1 ∧
    (TerminalGrid.new 2 2).resize 2 2 = (TerminalGrid.new 2 2, false) :=
  ⟨((C6_resize (TerminalGrid.new 2 2) 3 3).2 (by decide)).1,
   ((C6_resize (TerminalGrid.new 2 2) 3 3).2 (by decide)).2.1,
   (C6_resize (TerminalGrid.new 2 2) 2 2).1 ⟨by decide, by decide⟩⟩

/-- Counterexample to C6 as written: with a red background configured, the
cells of a freshly resized grid carry the default background rather than
the current one, and an empty alternate buffer is not re-allocated to the
new size. -/
theorem C6_resize_counterexample :
    (((TerminalGrid.new 2 2).apply_sgr [[41]]).resize 3 3).1.cell_at 0 0 ≠
      ((TerminalGrid.new 2 2).apply_sgr [[41]]).blank_cell ∧
    ((TerminalGrid.new 2 2).resize 3 3).1.alt_cells_len ≠ 3 * 3 := by
  decide

/-- C9: the key encoder emits the control byte for Ctrl plus an uppercase
letter key, the CSI A–D sequences for the arrows, ESC O P–S for F1–F4 and
ESC [ 15~/17~/18~/19~/20~/21~ for F5–F10. -/
theorem C9_key_encoder (c : Char) (h1 : 65 ≤ c.toNat) (h2 : c.toNat ≤ 90) :
    ctrl_key_byte (Key.letter c) = some (c.toNat - 64) ∧
    push_key_bytes Key.ArrowUp = ([0x1B, 0x5B, 0x41], true) ∧
    push_key_bytes Key.ArrowDown = ([0x1B, 0x5B, 0x42], true) ∧
    push_key_bytes Key.ArrowRight = ([0x1B, 0x5B, 0x43], true) ∧
    push_key_bytes Key.ArrowLeft = ([0x1B, 0x5B, 0x44], true) ∧
    push_key_bytes (Key.F 1) = ([0x1B, 0x4F, 0x50], true) ∧
    push_key_bytes (Key.F 2) = ([0x1B, 0x4F, 0x51], true) ∧
    push_key_bytes (Key.F 3) = ([0x1B, 0x4F, 0x52], true) ∧
    push_key_bytes (Key.F 4) = ([0x1B, 0x4F, 0x53], true) ∧
    push_key_bytes (Key.F 5) = ([0x1B, 0x5B, 0x31, 0x35, 0x7E], true) ∧
    push_key_bytes (Key.F 6) = ([0x1B, 0x5B, 0x31, 0x37, 0x7E], true) ∧
    push_key_bytes (Key.F 7) = ([0x1B, 0x5B, 0x31, 0x38, 0x7E], true) ∧
    push_key_bytes (Key.F 8) = ([0x1B, 0x5B, 0x31, 0x39, 0x7E], true) ∧
    push_key_bytes (Key.F 9) = ([0x1B, 0x5B, 0x32, 0x30, 0x7E], true) ∧
    push_key_bytes (Key.F 10) = ([0x1B, 0x5B, 0x32, 0x31, 0x7E], true) := by
  refine ⟨?_, by decide, by decide, by decide, by decide, by decide, by decide,
    by decide, by decide, by decide, by decide, by decide, by decide, by decide,
    by decide⟩
  simp only [ctrl_key_byte, Key.name]
  rw [if_pos ⟨h1, h2⟩]
  congr 1
  omega

/-- Witness for C9 at the letter key C (control byte 0x03). -/
theorem C9_key_encoder_witness :
    ctrl_key_byte (Key.letter 'C') = some ('C'.toNat - 64) ∧
    push_key_bytes Key.ArrowUp = ([0x1B, 0x5B, 0x41], true) ∧
    push_key_bytes Key.ArrowDown = ([0x1B, 0x5B, 0x42], true) ∧
    push_key_bytes Key.ArrowRight = ([0x1B, 0x5B, 0x43], true) ∧
    push_key_bytes Key.ArrowLeft = ([0x1B, 0x5B, 0x44], true) ∧
    push_key_bytes (Key.F 1) = ([0x1B, 0x4F, 0x50], true) ∧
    push_key_bytes (Key.F 2) = ([0x1B, 0x4F, 0x51], true) ∧
    push_key_bytes (Key.F 3) = ([0x1B, 0x4F, 0x52], true) ∧
    push_key_bytes (Key.F 4) = ([0x1B, 0x4F, 0x53], true) ∧
    push_key_bytes (Key.F 5) = ([0x1B, 0x5B, 0x31, 0x35, 0x7E], true) ∧
    push_key_bytes (Key.F 6) = ([0x1B, 0x5B, 0x31, 0x37, 0x7E], true) ∧
    push_key_bytes (Key.F 7) = ([0x1B, 0x5B, 0x31, 0x38, 0x7E], true) ∧
    push_key_bytes (Key.F 8) = ([0x1B, 0x5B, 0x31, 0x39, 0x7E], true) ∧
    push_key_bytes (Key.F 9) = ([0x1B, 0x5B, 0x32, 0x30, 0x7E], true) ∧
    push_key_bytes (Key.F 10) = ([0x1B, 0x5B, 0x32, 0x31, 0x7E], true) :=
  C9_key_encoder 'C' (by decide) (by decide)

end Shitty
